/-
  Shallow embedding of the x86-64 lowering backend in src/core/sysir_x86.c
  (the Janet sysir x64 backend), together with theorems checking the
  backend's specification against this embedding.

  Modelling conventions:
  * The output buffer is a `List Line`, one entry per line of NASM text the C
    code appends (each `janet_formatb`-built line becomes one `Line`).
  * Machine integers (uint32_t masks, counts, offsets) are modelled as `Nat`;
    all the masks involved fit well below 2^32, so no wrap-around occurs in
    the modelled computations.
  * A fatal error (`janet_panic`, which longjmps out of the lowering call)
    is modelled by an `Option String` fault component paired with the output
    produced up to the fault.
  * Declarations whose C source is not under src/ (the sysir.h helpers and
    operand-encoding constants) are modelled from the spec and say so in
    their doc comments.
-/
import Mathlib

set_option maxHeartbeats 1000000

/-! ## Register numbering and name tables (sysir_x86.c lines 31-63) -/

def RAX : Nat := 0
def RCX : Nat := 1
def RDX : Nat := 2
def RBX : Nat := 3
def RSI : Nat := 4
def RDI : Nat := 5
def RSP : Nat := 6
def RBP : Nat := 7

def register_names : List String :=
  ["rax", "rcx", "rdx", "rbx", "rsi", "rdi", "rsp", "rbp",
   "r8", "r9", "r10", "r11", "r12", "r13", "r14", "r15"]

def register_names_32 : List String :=
  ["eax", "ecx", "edx", "ebx", "esi", "edi", "esp", "ebp",
   "r8d", "r9d", "r10d", "r11d", "r12d", "r13d", "r14d", "r15d"]

def register_names_16 : List String :=
  ["ax", "cx", "dx", "bx", "si", "di", "sp", "bp",
   "r8w", "r9w", "r10w", "r11w", "r12w", "r13w", "r14w", "r15w"]

def register_names_8 : List String :=
  ["al", "cl", "dl", "bl", "sil", "dil", "spl", "bpl",
   "r8b", "r9b", "r10b", "r11b", "r12b", "r13b", "r14b", "r15b"]

def register_names_xmm : List String :=
  ["xmm0", "xmm1", "xmm2", "xmm3", "xmm4", "xmm5", "xmm6", "xmm7",
   "xmm8", "xmm9", "xmm10", "xmm11", "xmm12", "xmm13", "xmm14", "xmm15"]

/-! ## Core data model -/

inductive x64RegKind
  | SYSREG_8
  | SYSREG_16
  | SYSREG_32
  | SYSREG_64
  | SYSREG_2x64
  | SYSREG_XMM
deriving DecidableEq, Inhabited

inductive x64Storage
  | SYSREG_REGISTER
  | SYSREG_STACK
  | SYSREG_STACK_PARAMETER
deriving DecidableEq, Inhabited

structure x64Reg where
  kind : x64RegKind
  storage : x64Storage
  index : Nat
deriving DecidableEq, Inhabited

inductive JanetPrim
  | s8 | u8 | s16 | u16 | s32 | u32 | s64 | u64
  | f32 | f64 | boolean | pointer | other
deriving DecidableEq, Inhabited

structure JanetSysTypeLayout where
  size : Nat
  alignment : Nat
deriving DecidableEq, Inhabited

/-- Layout for primitive types (sysir_x86.c `get_x64layout`, lines 101-137).
The C function receives a `JanetSysTypeInfo` and only reads its `prim` field,
so the embedding takes the primitive directly. -/
def get_x64layout (prim : JanetPrim) : JanetSysTypeLayout :=
  match prim with
  | .s8 | .u8 | .boolean => ⟨1, 1⟩
  | .s16 | .u16 => ⟨2, 2⟩
  | .s32 | .u32 => ⟨4, 4⟩
  | .u64 | .s64 | .pointer => ⟨8, 8⟩
  | .f32 | .f64 => ⟨8, 8⟩
  | .other => ⟨1, 1⟩

inductive JanetSysCallingConvention
  | DEFAULT
  | X64_SYSV
  | X64_WINDOWS
  | OTHER_CC
deriving DecidableEq, Inhabited

inductive JanetSysTarget
  | X64_WINDOWS
  | X64_OTHER
deriving DecidableEq, Inhabited

/-- Modelled from the spec: constants carry a tagged value that is an
integer, a string (byte array) or a symbol (external link name); the type
itself lives in sysir.h/sysir.c, which are not under src/. -/
inductive JanetConstValue
  | intv (i : Int)
  | strv (bytes : List Nat)
  | symv (name : String)
  | nilv
deriving DecidableEq, Inhabited

structure JanetSysConstant where
  type : Nat
  value : JanetConstValue
deriving DecidableEq, Inhabited

inductive JanetSysOp
  | LOAD | STORE
  | TYPE_PRIMITIVE | TYPE_UNION | TYPE_STRUCT | TYPE_BIND | TYPE_ARRAY | TYPE_POINTER
  | ARG
  | POINTER_ADD | ADD | POINTER_SUBTRACT | SUBTRACT
  | MULTIPLY | DIVIDE | BAND | BOR | BXOR | SHL | SHR
  | MOVE | RETURN | LABEL
  | EQ | NEQ | LT | LTE | GT | GTE
  | CAST | BRANCH | BRANCH_NOT | JUMP
  | SYSCALL | CALL
  | UNKNOWN_OP
deriving DecidableEq, Inhabited

/-- One IR instruction. The C type is a union of per-opcode structs
(`three {dest lhs rhs}`, `two {dest src}`, `branch {cond to}`, `jump {to}`,
`label {id}`, `ret {value has_value}`, `call {dest callee flags cc}`); the
embedding gives every view its own field, and each opcode reads only the
fields of its own view, exactly as the C code does.  The trailing
variable-length argument list of a call (read by `janet_sys_callargs` from
the following ARG pseudo-instructions, a helper living outside src/) is
modelled from the spec as the `args` field of the call instruction. -/
structure JanetSysInstruction where
  opcode : JanetSysOp
  dest : Nat := 0
  lhs : Nat := 0
  rhs : Nat := 0
  src : Nat := 0
  cond : Nat := 0
  toLbl : Nat := 0
  id : Nat := 0
  value : Nat := 0
  has_value : Bool := false
  callee : Nat := 0
  flags : Nat := 0
  call_cc : JanetSysCallingConvention := .DEFAULT
  args : List Nat := []
deriving DecidableEq, Inhabited

structure JanetSysIR where
  link_name : Option String
  calling_convention : JanetSysCallingConvention
  parameter_count : Nat
  register_count : Nat
  types : Nat → Nat
  constants : List JanetSysConstant
  instructions : List JanetSysInstruction

structure JanetSysIRLinkage where
  ir_ordered : List JanetSysIR
  type_defs : Nat → JanetPrim

/-- Modelled from the spec: a 32-bit operand strictly above
`JANET_SYS_MAX_OPERAND` denotes a constant (the constant defines live in
sysir.h, which is not under src/). -/
def JANET_SYS_MAX_OPERAND : Nat := 0x7fffffff

/-- Modelled from the spec: a constant operand's index is the operand minus
this base value (named JANET_SYS_CONSTANT_ PREF IX in the source headers,
which are not under src/). -/
def sysConstantBase : Nat := 0x80000000

/-- Modelled from the spec: the sysir helper `janet_sys_optype` (not under
src/) returns the type id of an operand; constants carry their own type
(spec section 3), other operands use the function's `types` table.  This is
the same lookup `get_slot_regkind` performs inline at lines 143-147. -/
def janet_sys_optype (ir : JanetSysIR) (o : Nat) : Nat :=
  if o > JANET_SYS_MAX_OPERAND then
    (ir.constants.getD (o - sysConstantBase) default).type
  else
    ir.types o

/-- The lowering context (sysir_x86.c `JanetSysx64Context`, lines 86-98).
`type_defs` stands for `linkage->type_defs[...].prim` (only the `prim` field
of a type definition is ever read by this backend), and `ir_layouts` for the
per-virtual-register layout table built at lines 795-798. -/
structure Sysx64Context where
  type_defs : Nat → JanetPrim
  ir : JanetSysIR
  regs : List x64Reg
  ir_layouts : Nat → JanetSysTypeLayout
  frame_size : Nat
  calling_convention : JanetSysCallingConvention
  ir_index : Nat
  occupied_registers : Nat
  clobbered_registers : Nat

/-- sysir_x86.c `get_slot_regkind`, lines 141-159. -/
def get_slot_regkind (ctx : Sysx64Context) (o : Nat) : x64RegKind :=
  let prim :=
    if o > JANET_SYS_MAX_OPERAND then
      ctx.type_defs (ctx.ir.constants.getD (o - sysConstantBase) default).type
    else
      ctx.type_defs (ctx.ir.types o)
  if prim = .s8 ∨ prim = .u8 then .SYSREG_8
  else if prim = .s16 ∨ prim = .u16 then .SYSREG_16
  else if prim = .s32 ∨ prim = .u32 then .SYSREG_32
  else if prim = .f64 ∨ prim = .f32 then .SYSREG_XMM
  else .SYSREG_64

/-! ## Register assignment (sysir_x86.c `assign_registers`, lines 162-254) -/

structure AssignState where
  regs : List x64Reg
  assigned : Nat
  occupied : Nat
  next_loc : Nat
deriving Inhabited

/-- The `while ((1 << to) & assigned) to++;` search at line 215.  The loop is
only entered when `assigned < 0xFFFF`, so a free bit exists among 0..15 and
16 steps of fuel always suffice. -/
def lowestFreeAux : Nat → Nat → Nat → Nat
  | _, toReg, 0 => toReg
  | assigned, toReg, fuel + 1 =>
    if (1 <<< toReg) &&& assigned ≠ 0 then lowestFreeAux assigned (toReg + 1) fuel else toReg

def lowestFreeReg (assigned : Nat) : Nat := lowestFreeAux assigned 0 16

/-- The sysv parameter-register chain, lines 188-198. -/
def sysvParamReg (ctx : Sysx64Context) (i : Nat) : x64Reg :=
  let kind := get_slot_regkind ctx i
  if i = 0 then ⟨kind, .SYSREG_REGISTER, RDI⟩
  else if i = 1 then ⟨kind, .SYSREG_REGISTER, RSI⟩
  else if i = 2 then ⟨kind, .SYSREG_REGISTER, RDX⟩
  else if i = 3 then ⟨kind, .SYSREG_REGISTER, RCX⟩
  else if i = 4 then ⟨kind, .SYSREG_REGISTER, 8⟩
  else if i = 5 then ⟨kind, .SYSREG_REGISTER, 9⟩
  else ⟨kind, .SYSREG_STACK_PARAMETER, (i - 6) * 8 + 16⟩

/-- The win64 parameter-register chain, lines 200-208. -/
def winParamReg (ctx : Sysx64Context) (i : Nat) : x64Reg :=
  let kind := get_slot_regkind ctx i
  if i = 0 then ⟨kind, .SYSREG_REGISTER, RCX⟩
  else if i = 1 then ⟨kind, .SYSREG_REGISTER, RDX⟩
  else if i = 2 then ⟨kind, .SYSREG_REGISTER, 8⟩
  else if i = 3 then ⟨kind, .SYSREG_REGISTER, 9⟩
  else ⟨kind, .SYSREG_STACK_PARAMETER, (i - 4) * 8 + 16⟩

/-- One iteration of the assignment loop (lines 182-228). -/
def assignStep (ctx : Sysx64Context) (cc : JanetSysCallingConvention)
    (i : Nat) (st : AssignState) : Except String AssignState :=
  let kind := get_slot_regkind ctx i
  if i < ctx.ir.parameter_count then
    if cc = .X64_SYSV then
      .ok { st with regs := st.regs ++ [sysvParamReg ctx i] }
    else if cc = .X64_WINDOWS then
      .ok { st with regs := st.regs ++ [winParamReg ctx i] }
    else
      .error "cannot assign registers for calling convention"
  else if st.assigned < 0xFFFF then
    let toReg := lowestFreeReg st.assigned
    .ok { regs := st.regs ++ [⟨kind, .SYSREG_REGISTER, toReg⟩],
          assigned := st.assigned ||| (1 <<< toReg),
          occupied := st.occupied ||| (1 <<< toReg),
          next_loc := st.next_loc }
  else
    let layout := ctx.ir_layouts i
    let loc := (st.next_loc + layout.alignment - 1) / layout.alignment * layout.alignment
    .ok { regs := st.regs ++ [⟨kind, .SYSREG_STACK, loc⟩],
          assigned := st.assigned,
          occupied := st.occupied,
          next_loc := loc + layout.size }

def assignLoop (ctx : Sysx64Context) (cc : JanetSysCallingConvention) :
    List Nat → AssignState → Except String AssignState
  | [], st => .ok st
  | i :: rest, st =>
    match assignStep ctx cc i st with
    | .error m => .error m
    | .ok st1 => assignLoop ctx cc rest st1

/-- sysir_x86.c `assign_registers`, lines 162-254.  Returns the context with
`regs`, `frame_size`, `occupied_registers` and `clobbered_registers` filled
in (the C function mutates those fields of `ctx`).  The win64
`non_volatile_mask` reproduces the source expression exactly, including its
`(RDI << 12) | (RSI << 12)` terms. -/
def assign_registers (ctx : Sysx64Context) : Except String Sysx64Context :=
  let cc := ctx.calling_convention
  let init : AssignState :=
    ⟨[], (1 <<< RSP) ||| (1 <<< RBP) ||| (1 <<< RAX) ||| (1 <<< RBX), 0, 16⟩
  match assignLoop ctx cc (List.range ctx.ir.register_count) init with
  | .error m => .error m
  | .ok st =>
    let next_loc := (st.next_loc + 15) / 16 * 16
    let non_volatile_mask : Nat :=
      if cc = .X64_SYSV then
        (1 <<< RBX) ||| (1 <<< 12) ||| (1 <<< 13) ||| (1 <<< 14) ||| (1 <<< 15)
      else if cc = .X64_WINDOWS then
        (1 <<< RBX) ||| (RDI <<< 12) ||| (RSI <<< 12) |||
          (1 <<< 12) ||| (1 <<< 13) ||| (1 <<< 14) ||| (1 <<< 15)
      else 0
    let frame_size := if cc = .X64_WINDOWS then next_loc + 16 else next_loc
    .ok { ctx with
          regs := st.regs,
          frame_size := frame_size,
          occupied_registers := st.occupied,
          clobbered_registers := st.assigned &&& non_volatile_mask }

/-! ## Emitted assembly lines

One `Line` per line of NASM text appended to the output buffer. -/

inductive Line
  | header
  | globaldecl (name : String)
  | symDecl (name : String)
  | sectionText
  | sectionRodata
  | fnLabel (name : String)
  | ins (op : String) (args : List String)
  | jump (op : String) (fn_ix : Nat) (toLbl : Nat)
  | labelLine (fn_ix : Nat) (id : Nat)
  | comment (text : String)
  | constdb (fn_ix : Nat) (const_ix : Nat) (bytes : List Nat)
deriving DecidableEq, Inhabited

/-- sysir_x86.c `operand_isstack`, lines 256-260. -/
def operand_isstack (ctx : Sysx64Context) (o : Nat) : Bool :=
  if o > JANET_SYS_MAX_OPERAND then false
  else decide ((ctx.regs.getD o default).storage ≠ .SYSREG_REGISTER)

/-- sysir_x86.c `operand_isreg`, lines 262-267. -/
def operand_isreg (ctx : Sysx64Context) (o : Nat) (regindex : Nat) : Bool :=
  if o > JANET_SYS_MAX_OPERAND then false
  else
    let reg := ctx.regs.getD o default
    if reg.storage ≠ .SYSREG_REGISTER then false
    else decide (reg.index = regindex)

/-- sysir_x86.c `sysemit_sizestr`, lines 269-282. -/
def sysemit_sizestr (kind : x64RegKind) : String :=
  match kind with
  | .SYSREG_8 => "byte"
  | .SYSREG_16 => "word"
  | .SYSREG_32 => "dword"
  | .SYSREG_64 => "qword"
  | _ => "qword"

def sysemit_sizestr_reg (reg : x64Reg) : String := sysemit_sizestr reg.kind

def sysemit_sizestr_slot (ctx : Sysx64Context) (slot : Nat) : String :=
  sysemit_sizestr (get_slot_regkind ctx slot)

/-- sysir_x86.c `sysemit_reg`, lines 292-312, as the operand text it appends. -/
def sysemit_reg (reg : x64Reg) : String :=
  let sizestr := sysemit_sizestr_reg reg
  if reg.storage = .SYSREG_STACK then sizestr ++ " [rbp-" ++ toString reg.index ++ "]"
  else if reg.storage = .SYSREG_STACK_PARAMETER then sizestr ++ " [rbp+" ++ toString reg.index ++ "]"
  else if reg.kind = .SYSREG_64 then register_names.getD reg.index ""
  else if reg.kind = .SYSREG_32 then register_names_32.getD reg.index ""
  else if reg.kind = .SYSREG_16 then register_names_16.getD reg.index ""
  else if reg.kind = .SYSREG_8 then register_names_8.getD reg.index ""
  else register_names_xmm.getD reg.index ""

/-- The `%V` rendering of a non-string constant at line 329 (janet's value
formatter prints an integer as its decimal text and a symbol as its name). -/
def renderConstValue : JanetConstValue → String
  | .intv i => toString i
  | .strv _ => ""
  | .symv s => s
  | .nilv => "nil"

/-- sysir_x86.c `sysemit_operand`, lines 314-333, as the operand text. -/
def sysemit_operand (ctx : Sysx64Context) (o : Nat) : String :=
  if o ≤ JANET_SYS_MAX_OPERAND then
    sysemit_reg (ctx.regs.getD o default)
  else
    let index := o - sysConstantBase
    let c := (ctx.ir.constants.getD index default).value
    match c with
    | .strv _ => "CONST_" ++ toString ctx.ir_index ++ "_" ++ toString index
    | _ => renderConstValue c

/-- sysir_x86.c `sysemit_binop`, lines 336-354: `A = A op B`. -/
def sysemit_binop (ctx : Sysx64Context) (op : String) (dest src : Nat) : List Line :=
  if operand_isstack ctx dest && operand_isstack ctx src then
    let tempreg : x64Reg := ⟨get_slot_regkind ctx dest, .SYSREG_REGISTER, RAX⟩
    [.ins "mov" [sysemit_reg tempreg, sysemit_operand ctx src],
     .ins op [sysemit_operand ctx dest, sysemit_reg tempreg]]
  else
    [.ins op [sysemit_operand ctx dest, sysemit_operand ctx src]]

/-- sysir_x86.c `sysemit_load`, lines 357-424: `dest = src[0]`.  In the
both-on-stack case the source leaves `tempreg2.storage` uninitialized (it
assigns `tempreg.storage` twice); the emission path taken only makes sense
for register storage, which is how it is modelled here. -/
def sysemit_load (ctx : Sysx64Context) (dest src : Nat) : List Line :=
  let src_is_stack := operand_isstack ctx src
  let dest_is_stack := operand_isstack ctx dest
  if !src_is_stack && !dest_is_stack then
    [.ins "mov" [sysemit_operand ctx dest, "[" ++ sysemit_operand ctx src ++ "]"]]
  else if src_is_stack && dest_is_stack then
    let tempreg : x64Reg := ⟨get_slot_regkind ctx src, .SYSREG_REGISTER, RAX⟩
    let tempreg2 : x64Reg := ⟨get_slot_regkind ctx dest, .SYSREG_REGISTER, RAX⟩
    [.ins "mov" [sysemit_reg tempreg, sysemit_operand ctx src],
     .ins "mov" [sysemit_reg tempreg2, "[" ++ sysemit_reg tempreg ++ "]"],
     .ins "mov" [sysemit_operand ctx dest, sysemit_reg tempreg2]]
  else if src_is_stack then
    let tempreg : x64Reg := ⟨get_slot_regkind ctx src, .SYSREG_REGISTER, RAX⟩
    [.ins "mov" [sysemit_reg tempreg, sysemit_operand ctx src],
     .ins "mov" [sysemit_operand ctx dest, "[" ++ sysemit_reg tempreg ++ "]"]]
  else
    let tempreg : x64Reg := ⟨get_slot_regkind ctx src, .SYSREG_REGISTER, RAX⟩
    [.ins "mov" [sysemit_reg tempreg, "[" ++ sysemit_operand ctx src ++ "]"],
     .ins "mov" [sysemit_operand ctx dest, sysemit_reg tempreg]]

/-- sysir_x86.c `sysemit_store`, lines 427-493: `dest[0] = src`.  As in the
load path, the second temporary's `storage` field is left uninitialized by
the source and modelled as register storage. -/
def sysemit_store (ctx : Sysx64Context) (dest src : Nat) : List Line :=
  let src_is_stack := operand_isstack ctx src
  let dest_is_stack := operand_isstack ctx dest
  let store_size := sysemit_sizestr_slot ctx src
  if !src_is_stack && !dest_is_stack then
    [.ins "mov" [store_size ++ " [" ++ sysemit_operand ctx dest ++ "]", sysemit_operand ctx src]]
  else if src_is_stack && dest_is_stack then
    let tempreg : x64Reg := ⟨get_slot_regkind ctx dest, .SYSREG_REGISTER, RAX⟩
    let tempreg2 : x64Reg := ⟨get_slot_regkind ctx dest, .SYSREG_REGISTER, RBX⟩
    [.ins "mov" [sysemit_reg tempreg, sysemit_operand ctx dest],
     .ins "mov" [sysemit_reg tempreg2, sysemit_operand ctx src],
     .ins "mov" [store_size ++ " [" ++ sysemit_reg tempreg ++ "]", sysemit_reg tempreg2]]
  else if src_is_stack then
    let tempreg : x64Reg := ⟨get_slot_regkind ctx src, .SYSREG_REGISTER, RAX⟩
    [.ins "mov" [sysemit_reg tempreg, sysemit_operand ctx src],
     .ins "mov" [store_size ++ " [" ++ sysemit_operand ctx dest ++ "]", sysemit_reg tempreg]]
  else
    let tempreg : x64Reg := ⟨get_slot_regkind ctx dest, .SYSREG_REGISTER, RAX⟩
    [.ins "mov" [sysemit_reg tempreg, sysemit_operand ctx dest],
     .ins "mov" [store_size ++ " [" ++ sysemit_reg tempreg ++ "]", sysemit_operand ctx src]]

/-- sysir_x86.c `sysemit_mov`, lines 495-498. -/
def sysemit_mov (ctx : Sysx64Context) (dest src : Nat) : List Line :=
  if dest = src then [] else sysemit_binop ctx "mov" dest src

/-- sysir_x86.c `sysemit_movreg`, lines 500-509: move operand `src` into the
physical register `regdest` (sized to `src`'s kind). -/
def sysemit_movreg (ctx : Sysx64Context) (regdest : Nat) (src : Nat) : List Line :=
  if operand_isreg ctx src regdest then []
  else
    let tempreg : x64Reg := ⟨get_slot_regkind ctx src, .SYSREG_REGISTER, regdest⟩
    [.ins "mov" [sysemit_reg tempreg, sysemit_operand ctx src]]

/-- sysir_x86.c `sysemit_movfromreg`, lines 511-520: move the physical
register `srcreg` into operand `dest` (sized to `dest`'s kind). -/
def sysemit_movfromreg (ctx : Sysx64Context) (dest : Nat) (srcreg : Nat) : List Line :=
  if operand_isreg ctx dest srcreg then []
  else
    let tempreg : x64Reg := ⟨get_slot_regkind ctx dest, .SYSREG_REGISTER, srcreg⟩
    [.ins "mov" [sysemit_operand ctx dest, sysemit_reg tempreg]]

/-- sysir_x86.c `sysemit_pushreg`, lines 522-524. -/
def sysemit_pushreg (dest_reg : Nat) : List Line :=
  [.ins "push" [register_names.getD dest_reg ""]]

/-- sysir_x86.c `sysemit_mov_save`, lines 527-530. -/
def sysemit_mov_save (ctx : Sysx64Context) (dest_reg : Nat) (src : Nat) : List Line :=
  sysemit_pushreg dest_reg ++ sysemit_movreg ctx dest_reg src

/-- sysir_x86.c `sysemit_popreg`, lines 532-534. -/
def sysemit_popreg (dest_reg : Nat) : List Line :=
  [.ins "pop" [register_names.getD dest_reg ""]]

/-- sysir_x86.c `sysemit_threeop`, lines 536-539. -/
def sysemit_threeop (ctx : Sysx64Context) (op : String) (dest lhs rhs : Nat) : List Line :=
  sysemit_mov ctx dest lhs ++ sysemit_binop ctx op dest rhs

/-- sysir_x86.c `sysemit_threeop_nodeststack`, lines 541-556.  Note that in
the stack-destination branch the source emits the operation against `lhs`
(line 551), not `rhs`. -/
def sysemit_threeop_nodeststack (ctx : Sysx64Context) (op : String)
    (dest lhs rhs : Nat) : List Line :=
  if operand_isstack ctx dest then
    let tempreg : x64Reg := ⟨get_slot_regkind ctx dest, .SYSREG_REGISTER, RAX⟩
    sysemit_movreg ctx RAX lhs ++
      [.ins op [sysemit_reg tempreg, sysemit_operand ctx lhs]] ++
      sysemit_movfromreg ctx dest RAX
  else
    sysemit_threeop ctx op dest lhs rhs

/-- sysir_x86.c `sysemit_three_inst`, lines 558-560. -/
def sysemit_three_inst (ctx : Sysx64Context) (op : String)
    (instruction : JanetSysInstruction) : List Line :=
  sysemit_threeop ctx op instruction.dest instruction.lhs instruction.rhs

/-- sysir_x86.c `sysemit_ret`, lines 562-572. -/
def sysemit_ret (ctx : Sysx64Context) (arg : Nat) (has_return : Bool) : List Line :=
  (if has_return then sysemit_movreg ctx RAX arg else []) ++
  ((List.range 32).reverse.filterMap (fun k =>
    if ctx.clobbered_registers &&& (1 <<< k) ≠ 0 then
      some (Line.ins "pop" [register_names.getD k ""])
    else none)) ++
  [.ins "leave" [], .ins "ret" []]

/-- sysir_x86.c `sysemit_comp`, lines 574-610.  The C function receives the
instruction index and reads `instructions[index]` and (when in range)
`instructions[index + 1]`; the embedding receives the instruction and the
optional next instruction instead.  Returns the emitted lines and the
"skip the next IR instruction" flag the C function returns. -/
def sysemit_comp (ctx : Sysx64Context) (instruction : JanetSysInstruction)
    (next? : Option JanetSysInstruction)
    (branch branch_invert set set_invert : String) : List Line × Bool :=
  let swapped := instruction.lhs > JANET_SYS_MAX_OPERAND
  let set1 := if swapped then set_invert else set
  let branch1 := if swapped then branch_invert else branch
  let branch_invert1 := if swapped then branch else branch_invert
  let cmpLines :=
    if swapped then sysemit_binop ctx "cmp" instruction.rhs instruction.lhs
    else sysemit_binop ctx "cmp" instruction.lhs instruction.rhs
  let setTail :=
    (if get_slot_regkind ctx instruction.dest ≠ .SYSREG_8 then
      sysemit_binop ctx "xor" instruction.dest instruction.dest
     else []) ++
    [Line.ins set1 [register_names_8.getD instruction.dest ""]]
  match next? with
  | some nexti =>
    if (nexti.opcode = .BRANCH ∨ nexti.opcode = .BRANCH_NOT) ∧ nexti.cond = instruction.dest then
      (cmpLines ++
        [Line.jump (if nexti.opcode = .BRANCH_NOT then branch_invert1 else branch1)
          ctx.ir_index nexti.toLbl],
       true)
    else (cmpLines ++ setTail, false)
  | none => (cmpLines ++ setTail, false)

/-- sysir_x86.c `sysemit_cast`, lines 612-644. -/
def sysemit_cast (ctx : Sysx64Context) (instruction : JanetSysInstruction) : List Line :=
  let dest := instruction.dest
  let src := instruction.src
  let srckind := get_slot_regkind ctx src
  let destkind := get_slot_regkind ctx dest
  if srckind = destkind then
    sysemit_mov ctx dest src
  else
    let regindex :=
      if src ≤ JANET_SYS_MAX_OPERAND then
        let reg := ctx.regs.getD src default
        if reg.storage = .SYSREG_REGISTER then reg.index else RAX
      else RAX
    sysemit_movreg ctx regindex src ++ sysemit_movfromreg ctx dest regindex

/-- Modelled from the spec: the call-flag bit tested at lines 685 and 729
("if the call has a destination operand"); the flag constant lives in
sysir.h, which is not under src/. -/
def JANET_SYS_CALLFLAG_HAS_DEST : Nat := 1

/-- The register-save section of the sysv call (lines 649-670): arguments
moved into their ABI registers with the old contents pushed, plus plain
pushes of occupied caller-saved registers. -/
def sysvSaveSection (ctx : Sysx64Context) (args : List Nat) : List Line :=
  let argcount := args.length
  let save_rdi : Bool := decide (1 ≤ argcount) || decide (ctx.occupied_registers &&& (1 <<< RDI) ≠ 0)
  let save_rsi : Bool := decide (2 ≤ argcount) || decide (ctx.occupied_registers &&& (1 <<< RSI) ≠ 0)
  let save_rdx : Bool := decide (3 ≤ argcount) || decide (ctx.occupied_registers &&& (1 <<< RDX) ≠ 0)
  let save_rcx : Bool := decide (4 ≤ argcount) || decide (ctx.occupied_registers &&& (1 <<< RCX) ≠ 0)
  let save_r8 : Bool := decide (5 ≤ argcount) || decide (ctx.occupied_registers &&& (1 <<< 8) ≠ 0)
  let save_r9 : Bool := decide (6 ≤ argcount) || decide (ctx.occupied_registers &&& (1 <<< 9) ≠ 0)
  let save_r10 : Bool := decide (ctx.occupied_registers &&& (1 <<< 10) ≠ 0)
  let save_r11 : Bool := decide (ctx.occupied_registers &&& (1 <<< 11) ≠ 0)
  (if save_rdi && decide (1 ≤ argcount) then sysemit_mov_save ctx RDI (args.getD 0 0) else []) ++
  (if save_rdi && decide (argcount < 1) then sysemit_pushreg RDI else []) ++
  (if save_rsi && decide (2 ≤ argcount) then sysemit_mov_save ctx RSI (args.getD 1 0) else []) ++
  (if save_rsi && decide (argcount < 2) then sysemit_pushreg RSI else []) ++
  (if save_rdx && decide (3 ≤ argcount) then sysemit_mov_save ctx RDX (args.getD 2 0) else []) ++
  (if save_rdx && decide (argcount < 3) then sysemit_pushreg RDX else []) ++
  (if save_rcx && decide (4 ≤ argcount) then sysemit_mov_save ctx RCX (args.getD 3 0) else []) ++
  (if save_rcx && decide (argcount < 4) then sysemit_pushreg RCX else []) ++
  (if save_r8 && decide (5 ≤ argcount) then sysemit_mov_save ctx 8 (args.getD 4 0) else []) ++
  (if save_r8 && decide (argcount < 5) then sysemit_pushreg 8 else []) ++
  (if save_r9 && decide (6 ≤ argcount) then sysemit_mov_save ctx 9 (args.getD 5 0) else []) ++
  (if save_r9 && decide (argcount < 6) then sysemit_pushreg 9 else []) ++
  (if save_r10 then sysemit_pushreg 10 else []) ++
  (if save_r11 then sysemit_pushreg 11 else [])

/-- The call/syscall emission of the sysv call (lines 676-684). -/
def sysvCallSection (ctx : Sysx64Context) (instruction : JanetSysInstruction) : List Line :=
  if instruction.opcode = .SYSCALL then
    sysemit_movreg ctx RAX instruction.callee ++ [Line.ins "syscall" []]
  else
    [Line.ins "mov" ["rax", "0"],
     Line.ins "call" [sysemit_operand ctx instruction.callee]]

/-- The destination move after a call (lines 685 and 729; identical in both
calling conventions). -/
def callDestSection (ctx : Sysx64Context) (instruction : JanetSysInstruction) : List Line :=
  if instruction.flags &&& JANET_SYS_CALLFLAG_HAS_DEST ≠ 0 then
    sysemit_movreg ctx RAX instruction.dest
  else []

/-- The restore section of the sysv call (lines 686-693). -/
def sysvPopSection (ctx : Sysx64Context) (args : List Nat) : List Line :=
  let argcount := args.length
  let save_rdi : Bool := decide (1 ≤ argcount) || decide (ctx.occupied_registers &&& (1 <<< RDI) ≠ 0)
  let save_rsi : Bool := decide (2 ≤ argcount) || decide (ctx.occupied_registers &&& (1 <<< RSI) ≠ 0)
  let save_rdx : Bool := decide (3 ≤ argcount) || decide (ctx.occupied_registers &&& (1 <<< RDX) ≠ 0)
  let save_rcx : Bool := decide (4 ≤ argcount) || decide (ctx.occupied_registers &&& (1 <<< RCX) ≠ 0)
  let save_r8 : Bool := decide (5 ≤ argcount) || decide (ctx.occupied_registers &&& (1 <<< 8) ≠ 0)
  let save_r9 : Bool := decide (6 ≤ argcount) || decide (ctx.occupied_registers &&& (1 <<< 9) ≠ 0)
  let save_r10 : Bool := decide (ctx.occupied_registers &&& (1 <<< 10) ≠ 0)
  let save_r11 : Bool := decide (ctx.occupied_registers &&& (1 <<< 11) ≠ 0)
  (if save_r11 then sysemit_popreg 11 else []) ++
  (if save_r10 then sysemit_popreg 10 else []) ++
  (if save_r9 then sysemit_popreg 9 else []) ++
  (if save_r8 then sysemit_popreg 8 else []) ++
  (if save_rcx then sysemit_popreg RCX else []) ++
  (if save_rdx then sysemit_popreg RDX else []) ++
  (if save_rsi then sysemit_popreg RSI else []) ++
  (if save_rdi then sysemit_popreg RDI else [])

/-- sysir_x86.c `sysemit_sysv_call`, lines 646-694.  The push loop for stack
arguments (lines 671-675) calls `janet_panic` as its first statement, so it
aborts on its first iteration whenever `argcount > 6`; the partial output at
that point is the register-save section. -/
def sysemit_sysv_call (ctx : Sysx64Context) (instruction : JanetSysInstruction)
    (args : List Nat) : List Line × Option String :=
  let saves := sysvSaveSection ctx args
  if args.length > 6 then
    (saves, some "nyi push sysv args")
  else
    (saves ++ sysvCallSection ctx instruction ++ callDestSection ctx instruction ++
      sysvPopSection ctx args, none)

/-- The argument-register save section of the win64 call (lines 699-712). -/
def win64SaveSection (ctx : Sysx64Context) (args : List Nat) : List Line :=
  let argcount := args.length
  let save_rcx : Bool := decide (1 ≤ argcount) || decide (ctx.occupied_registers &&& (1 <<< RCX) ≠ 0)
  let save_rdx : Bool := decide (2 ≤ argcount) || decide (ctx.occupied_registers &&& (1 <<< RDX) ≠ 0)
  let save_r8 : Bool := decide (3 ≤ argcount) || decide (ctx.occupied_registers &&& (1 <<< 8) ≠ 0)
  let save_r9 : Bool := decide (4 ≤ argcount) || decide (ctx.occupied_registers &&& (1 <<< 9) ≠ 0)
  (if save_rcx && decide (1 ≤ argcount) then sysemit_mov_save ctx RCX (args.getD 0 0) else []) ++
  (if save_rcx && decide (argcount < 1) then sysemit_pushreg RCX else []) ++
  (if save_rdx && decide (2 ≤ argcount) then sysemit_mov_save ctx RDX (args.getD 1 0) else []) ++
  (if save_rdx && decide (argcount < 2) then sysemit_pushreg RDX else []) ++
  (if save_r8 && decide (3 ≤ argcount) then sysemit_mov_save ctx 8 (args.getD 2 0) else []) ++
  (if save_r8 && decide (argcount < 3) then sysemit_pushreg 8 else []) ++
  (if save_r9 && decide (4 ≤ argcount) then sysemit_mov_save ctx 9 (args.getD 3 0) else []) ++
  (if save_r9 && decide (argcount < 4) then sysemit_pushreg 9 else [])

/-- The r10/r11 saves of the win64 call (lines 713-714). -/
def winPushR1011 (ctx : Sysx64Context) : List Line :=
  (if decide (ctx.occupied_registers &&& (1 <<< 10) ≠ 0) then sysemit_pushreg 10 else []) ++
  (if decide (ctx.occupied_registers &&& (1 <<< 11) ≠ 0) then sysemit_pushreg 11 else [])

/-- The r11/r10 restores of the win64 call (lines 730-731). -/
def winPopR1011 (ctx : Sysx64Context) : List Line :=
  (if decide (ctx.occupied_registers &&& (1 <<< 11) ≠ 0) then sysemit_popreg 11 else []) ++
  (if decide (ctx.occupied_registers &&& (1 <<< 10) ≠ 0) then sysemit_popreg 10 else [])

/-- The stack pushes for win64 arguments beyond the fourth (lines 715-718). -/
def win64ExtraPushes (ctx : Sysx64Context) (args : List Nat) : List Line :=
  (args.drop 4).map (fun a => Line.ins "push" [sysemit_operand ctx a])

/-- The call/syscall emission of the win64 call (lines 719-725). -/
def win64CallSection (ctx : Sysx64Context) (instruction : JanetSysInstruction) : List Line :=
  if instruction.opcode = .SYSCALL then
    sysemit_movreg ctx RAX instruction.callee ++ [Line.ins "syscall" []]
  else
    [Line.ins "call" [sysemit_operand ctx instruction.callee]]

/-- The stack adjustment after a win64 call with more than four arguments
(lines 726-728). -/
def win64AdjustSection (args : List Nat) : List Line :=
  if args.length > 4 then
    [Line.ins "add" ["rsp", toString (8 * (args.length - 4))]]
  else []

/-- The argument-register restore section of the win64 call (lines 732-735). -/
def win64PopTail (ctx : Sysx64Context) (args : List Nat) : List Line :=
  let argcount := args.length
  let save_rcx : Bool := decide (1 ≤ argcount) || decide (ctx.occupied_registers &&& (1 <<< RCX) ≠ 0)
  let save_rdx : Bool := decide (2 ≤ argcount) || decide (ctx.occupied_registers &&& (1 <<< RDX) ≠ 0)
  let save_r8 : Bool := decide (3 ≤ argcount) || decide (ctx.occupied_registers &&& (1 <<< 8) ≠ 0)
  let save_r9 : Bool := decide (4 ≤ argcount) || decide (ctx.occupied_registers &&& (1 <<< 9) ≠ 0)
  (if save_r9 then sysemit_popreg 9 else []) ++
  (if save_r8 then sysemit_popreg 8 else []) ++
  (if save_rdx then sysemit_popreg RDX else []) ++
  (if save_rcx then sysemit_popreg RCX else [])

/-- sysir_x86.c `sysemit_win64_call`, lines 696-736. -/
def sysemit_win64_call (ctx : Sysx64Context) (instruction : JanetSysInstruction)
    (args : List Nat) : List Line × Option String :=
  (win64SaveSection ctx args ++ winPushR1011 ctx ++ win64ExtraPushes ctx args ++
    win64CallSection ctx instruction ++ win64AdjustSection args ++
    callDestSection ctx instruction ++ (winPopR1011 ctx ++ win64PopTail ctx args), none)

/-! ## The per-function instruction walk (sysir_x86.c lines 817-928) -/

/-- Modelled from the spec: `janet_sys_callargs` (sysir.c, not under src/)
collects the call's argument operands from the trailing ARG
pseudo-instructions; the embedding stores them on the call instruction. -/
def janet_sys_callargs (instruction : JanetSysInstruction) : List Nat :=
  instruction.args

/-- Lowering of a single instruction: the body of the opcode switch at
lines 818-927.  Returns the emitted lines, the fatal-error message if one
was raised, and whether the next IR instruction must be skipped (the
`j += sysemit_comp(...)` pattern of the comparison cases). -/
def lowerInst (ctx : Sysx64Context) (instruction : JanetSysInstruction)
    (next? : Option JanetSysInstruction) : List Line × Option String × Bool :=
  match instruction.opcode with
  | .LOAD => (sysemit_load ctx instruction.dest instruction.src, none, false)
  | .STORE => (sysemit_store ctx instruction.dest instruction.src, none, false)
  | .TYPE_PRIMITIVE | .TYPE_UNION | .TYPE_STRUCT | .TYPE_BIND
  | .TYPE_ARRAY | .TYPE_POINTER | .ARG => ([], none, false)
  | .POINTER_ADD | .ADD => (sysemit_three_inst ctx "add" instruction, none, false)
  | .POINTER_SUBTRACT | .SUBTRACT => (sysemit_three_inst ctx "sub" instruction, none, false)
  | .MULTIPLY =>
    (sysemit_threeop_nodeststack ctx "imul" instruction.dest instruction.lhs instruction.rhs,
     none, false)
  | .DIVIDE => (sysemit_three_inst ctx "idiv" instruction, none, false)
  | .BAND => (sysemit_three_inst ctx "and" instruction, none, false)
  | .BOR => (sysemit_three_inst ctx "or" instruction, none, false)
  | .BXOR => (sysemit_three_inst ctx "xor" instruction, none, false)
  | .SHL => (sysemit_three_inst ctx "shl" instruction, none, false)
  | .SHR => (sysemit_three_inst ctx "shr" instruction, none, false)
  | .MOVE => (sysemit_mov ctx instruction.dest instruction.src, none, false)
  | .RETURN => (sysemit_ret ctx instruction.value instruction.has_value, none, false)
  | .LABEL => ([.labelLine ctx.ir_index instruction.id], none, false)
  | .EQ =>
    let p := sysemit_comp ctx instruction next? "je" "jne" "sete" "setne"
    (p.1, none, p.2)
  | .NEQ =>
    let p := sysemit_comp ctx instruction next? "jne" "je" "setne" "sete"
    (p.1, none, p.2)
  | .LT =>
    let p := sysemit_comp ctx instruction next? "jl" "jge" "setl" "setge"
    (p.1, none, p.2)
  | .LTE =>
    let p := sysemit_comp ctx instruction next? "jle" "jg" "setle" "setg"
    (p.1, none, p.2)
  | .GT =>
    let p := sysemit_comp ctx instruction next? "jg" "jle" "setg" "setle"
    (p.1, none, p.2)
  | .GTE =>
    let p := sysemit_comp ctx instruction next? "jge" "jl" "setge" "setl"
    (p.1, none, p.2)
  | .CAST => (sysemit_cast ctx instruction, none, false)
  | .BRANCH =>
    ([.ins "test" [sysemit_operand ctx instruction.cond, "0"],
      .jump "jnz" ctx.ir_index instruction.toLbl], none, false)
  | .BRANCH_NOT =>
    ([.ins "test" [sysemit_operand ctx instruction.cond, "0"],
      .jump "jz" ctx.ir_index instruction.toLbl], none, false)
  | .JUMP => ([.jump "jmp" ctx.ir_index instruction.toLbl], none, false)
  | .SYSCALL | .CALL =>
    let args := janet_sys_callargs instruction
    let cc :=
      if instruction.call_cc = .DEFAULT then ctx.calling_convention
      else instruction.call_cc
    if cc = .X64_SYSV then
      let p := sysemit_sysv_call ctx instruction args
      (p.1, p.2, false)
    else if cc = .X64_WINDOWS then
      let p := sysemit_win64_call ctx instruction args
      (p.1, p.2, false)
    else ([], none, false)
  | .UNKNOWN_OP => ([.comment "; nyi"], none, false)

/-- The instruction loop, lines 817-928.  A fatal error stops the walk with
the output produced so far. -/
def bodyLoop (ctx : Sysx64Context) : List JanetSysInstruction → List Line × Option String
  | [] => ([], none)
  | instruction :: rest =>
    let step := lowerInst ctx instruction rest.head?
    match step.2.1 with
    | some m => (step.1, some m)
    | none =>
      if step.2.2 then
        match rest with
        | [] => (step.1 ++ ([] : List Line), none)
        | _ :: rest2 =>
          let r := bodyLoop ctx rest2
          (step.1 ++ r.1, r.2)
      else
        let r := bodyLoop ctx rest
        (step.1 ++ r.1, r.2)

/-! ## Whole-linkage lowering (sysir_x86.c `janet_sys_ir_lower_to_x64`) -/

/-- The default calling-convention resolution at lines 781-792. -/
def resolve_cc (ircc : JanetSysCallingConvention) (target : JanetSysTarget) :
    JanetSysCallingConvention :=
  if ircc = .DEFAULT then
    match target with
    | .X64_WINDOWS => .X64_WINDOWS
    | _ => .X64_SYSV
  else ircc

/-- The partial context built before `assign_registers` is invoked
(lines 740-800): the linkage tables, the per-function layout table, the
resolved calling convention and the function index. -/
def ctxInit (linkage : JanetSysIRLinkage) (target : JanetSysTarget)
    (i : Nat) (ir : JanetSysIR) : Sysx64Context :=
  { type_defs := linkage.type_defs,
    ir := ir,
    regs := [],
    ir_layouts := fun k => get_x64layout (linkage.type_defs (ir.types k)),
    frame_size := 0,
    calling_convention := resolve_cc ir.calling_convention target,
    ir_index := i,
    occupied_registers := 0,
    clobbered_registers := 0 }

/-- The callee-saved pushes after the prologue (lines 810-814), in ascending
register order. -/
def clobberPushList (ctx : Sysx64Context) : List Line :=
  (List.range 32).filterMap (fun k =>
    if ctx.clobbered_registers &&& (1 <<< k) ≠ 0 then
      some (Line.ins "push" [register_names.getD k ""])
    else none)

/-- Lowering of one IR function (the body of the loop at lines 774-929):
context setup, register assignment, prologue, callee-saved pushes and the
instruction walk.  An IR without a link name contributes nothing (the
`continue` at lines 777-780). -/
def lowerOneIR (linkage : JanetSysIRLinkage) (target : JanetSysTarget)
    (i : Nat) (ir : JanetSysIR) : List Line × Option String :=
  match ir.link_name with
  | none => ([], none)
  | some nm =>
    match assign_registers (ctxInit linkage target i ir) with
    | .error m => ([], some m)
    | .ok ctx =>
      ([Line.fnLabel nm,
        Line.ins "push" ["rbp"],
        Line.ins "mov" ["rbp", "rsp"],
        Line.ins "sub" ["rsp", toString ctx.frame_size]] ++
        clobberPushList ctx ++ (bodyLoop ctx ir.instructions).1,
       (bodyLoop ctx ir.instructions).2)

/-- The function loop at lines 774-929 over the (index, ir) pairs; a fatal
error stops the loop with the output produced so far. -/
def lowerFns (linkage : JanetSysIRLinkage) (target : JanetSysTarget) :
    List (Nat × JanetSysIR) → List Line × Option String
  | [] => ([], none)
  | (i, ir) :: rest =>
    let p := lowerOneIR linkage target i ir
    match p.2 with
    | some m => (p.1, some m)
    | none =>
      let r := lowerFns linkage target rest
      (p.1 ++ r.1, r.2)

/-- The `global` declarations and the `seen` symbol table seeded with the
link names (lines 751-758). -/
def globalLines (linkage : JanetSysIRLinkage) : List Line × List String :=
  linkage.ir_ordered.foldl
    (fun acc ir =>
      match ir.link_name with
      | some n => (acc.1 ++ [Line.globaldecl n], acc.2 ++ [n])
      | none => acc)
    ([], [])

/-- The external-symbol declarations for symbol constants not already seen
(lines 759-770).  Note that this loop runs over every IR, named or not. -/
def symDeclLines (linkage : JanetSysIRLinkage) (seen0 : List String) : List Line :=
  (linkage.ir_ordered.foldl
    (fun acc ir =>
      ir.constants.foldl
        (fun acc2 c =>
          match c.value with
          | .symv s => if s ∈ acc2.2 then acc2 else (acc2.1 ++ [Line.symDecl s], acc2.2 ++ [s])
          | _ => acc2)
        acc)
    ([], seen0)).1

/-- The `.rodata` lines contributed by one IR's string constants
(lines 937-966).  The NASM `db` quoting of the bytes is carried on the
`constdb` line as the raw byte list. -/
def rodataForIR (i : Nat) (ir : JanetSysIR) : List Line :=
  ir.constants.enum.filterMap (fun jc =>
    match jc.2.value with
    | .strv bytes => some (Line.constdb i jc.1 bytes)
    | _ => none)

/-- The `.rodata` loop at lines 934-967: every IR, named or not. -/
def rodataAll (linkage : JanetSysIRLinkage) : List Line :=
  (linkage.ir_ordered.enum.map (fun p => rodataForIR p.1 p.2)).flatten

/-- sysir_x86.c `janet_sys_ir_lower_to_x64`, lines 738-968: the whole output
buffer, paired with the fatal-error message when lowering aborted. -/
def janet_sys_ir_lower_to_x64 (linkage : JanetSysIRLinkage)
    (target : JanetSysTarget) : List Line × Option String :=
  let head := [Line.header]
  let globals := globalLines linkage
  let syms := symDeclLines linkage globals.2
  let fns := lowerFns linkage target linkage.ir_ordered.enum
  match fns.2 with
  | some m => (head ++ globals.1 ++ syms ++ [Line.sectionText] ++ fns.1, some m)
  | none =>
    (head ++ globals.1 ++ syms ++ [Line.sectionText] ++ fns.1 ++
      [Line.sectionRodata] ++ rodataAll linkage, none)

/-! ## Predicates and projections used by the verification theorems -/

def isCondJump (l : Line) : Bool :=
  match l with
  | .jump op _ _ => decide (op ≠ "jmp")
  | _ => false

def isSetcc (l : Line) : Bool :=
  match l with
  | .ins op _ => decide (op ∈ ["sete", "setne", "setl", "setle", "setg", "setge"])
  | _ => false

def isTestIns (l : Line) : Bool :=
  match l with
  | .ins op _ => decide (op = "test")
  | _ => false

def isCallIns (l : Line) : Bool :=
  match l with
  | .ins op _ => decide (op = "call") || decide (op = "syscall")
  | _ => false

def pushToPop (l : Line) : Line :=
  match l with
  | .ins _ a => .ins "pop" a
  | x => x

/-- The conditional-jump string pair (jump, inverse jump) that the opcode
dispatch at lines 877-894 passes to `sysemit_comp` for each comparison. -/
def compBranchStrs : JanetSysOp → String × String
  | .EQ => ("je", "jne")
  | .NEQ => ("jne", "je")
  | .LT => ("jl", "jge")
  | .LTE => ("jle", "jg")
  | .GT => ("jg", "jle")
  | .GTE => ("jge", "jl")
  | _ => ("", "")

def isCompOp : JanetSysOp → Bool
  | .EQ | .NEQ | .LT | .LTE | .GT | .GTE => true
  | _ => false

def occupied_of (e : Except String Sysx64Context) : Nat :=
  match e with
  | .ok c => c.occupied_registers
  | .error _ => 0

def clobbered_of (e : Except String Sysx64Context) : Nat :=
  match e with
  | .ok c => c.clobbered_registers
  | .error _ => 0

def regs_of (e : Except String Sysx64Context) : List x64Reg :=
  match e with
  | .ok c => c.regs
  | .error _ => []

def frame_of (e : Except String Sysx64Context) : Nat :=
  match e with
  | .ok c => c.frame_size
  | .error _ => 0

/-! ## Concrete fixtures for evaluation theorems and witnesses -/

def irC1 : JanetSysIR :=
  { link_name := some "main", calling_convention := .X64_SYSV,
    parameter_count := 0, register_count := 1,
    types := fun _ => 0,
    constants := [⟨0, .symv "f"⟩],
    instructions := [] }

def ctxC1 : Sysx64Context :=
  { type_defs := fun _ => .s64, ir := irC1,
    regs := [⟨.SYSREG_64, .SYSREG_REGISTER, RCX⟩],
    ir_layouts := fun _ => ⟨8, 8⟩,
    frame_size := 16, calling_convention := .X64_SYSV, ir_index := 0,
    occupied_registers := 0, clobbered_registers := 0 }

def instC1 : JanetSysInstruction :=
  { opcode := .CALL, dest := 0, callee := 0x80000000, flags := 1 }

def irC2 : JanetSysIR :=
  { link_name := some "wfn", calling_convention := .X64_WINDOWS,
    parameter_count := 0, register_count := 3,
    types := fun _ => 0,
    constants := [],
    instructions := [] }

def ctxC2 : Sysx64Context :=
  { type_defs := fun _ => .s64, ir := irC2,
    regs := [],
    ir_layouts := fun _ => ⟨8, 8⟩,
    frame_size := 0, calling_convention := .X64_WINDOWS, ir_index := 0,
    occupied_registers := 0, clobbered_registers := 0 }

def irC3 : JanetSysIR :=
  { link_name := some "mfn", calling_convention := .X64_SYSV,
    parameter_count := 0, register_count := 3,
    types := fun _ => 0,
    constants := [],
    instructions := [] }

def ctxC3 : Sysx64Context :=
  { type_defs := fun _ => .s64, ir := irC3,
    regs := [⟨.SYSREG_64, .SYSREG_REGISTER, RCX⟩,
             ⟨.SYSREG_64, .SYSREG_REGISTER, RDX⟩,
             ⟨.SYSREG_64, .SYSREG_STACK, 16⟩],
    ir_layouts := fun _ => ⟨8, 8⟩,
    frame_size := 32, calling_convention := .X64_SYSV, ir_index := 0,
    occupied_registers := 0, clobbered_registers := 0 }

def ctxC4 : Sysx64Context :=
  { type_defs := fun _ => .s64, ir := irC3,
    regs := [⟨.SYSREG_64, .SYSREG_REGISTER, RCX⟩,
             ⟨.SYSREG_64, .SYSREG_REGISTER, RDX⟩,
             ⟨.SYSREG_64, .SYSREG_STACK, 16⟩],
    ir_layouts := fun _ => ⟨8, 8⟩,
    frame_size := 32, calling_convention := .X64_SYSV, ir_index := 0,
    occupied_registers := 0, clobbered_registers := 0 }

def instC4 : JanetSysInstruction :=
  { opcode := .EQ, dest := 1, lhs := 0, rhs := 2 }

def irC5 : JanetSysIR :=
  { link_name := some "zf", calling_convention := .X64_SYSV,
    parameter_count := 0, register_count := 0,
    types := fun _ => 0,
    constants := [],
    instructions := [] }

def irC5win : JanetSysIR :=
  { link_name := some "zfw", calling_convention := .X64_WINDOWS,
    parameter_count := 0, register_count := 0,
    types := fun _ => 0,
    constants := [],
    instructions := [] }

def ctxC5 : Sysx64Context :=
  { type_defs := fun _ => .s64, ir := irC5,
    regs := [],
    ir_layouts := fun _ => ⟨8, 8⟩,
    frame_size := 0, calling_convention := .X64_SYSV, ir_index := 0,
    occupied_registers := 0, clobbered_registers := 0 }

def ctxC5win : Sysx64Context :=
  { type_defs := fun _ => .s64, ir := irC5win,
    regs := [],
    ir_layouts := fun _ => ⟨8, 8⟩,
    frame_size := 0, calling_convention := .X64_WINDOWS, ir_index := 0,
    occupied_registers := 0, clobbered_registers := 0 }

def linkC5 : JanetSysIRLinkage :=
  { ir_ordered := [irC5], type_defs := fun _ => .s64 }

def irC6 : JanetSysIR :=
  { link_name := none, calling_convention := .X64_SYSV,
    parameter_count := 0, register_count := 0,
    types := fun _ => 0,
    constants := [⟨0, .symv "puts"⟩, ⟨0, .strv [104, 105]⟩],
    instructions := [] }

def linkC6 : JanetSysIRLinkage :=
  { ir_ordered := [irC6], type_defs := fun _ => .s64 }

def irC7 : JanetSysIR :=
  { link_name := some "cfn", calling_convention := .X64_SYSV,
    parameter_count := 0, register_count := 3,
    types := fun _ => 0,
    constants := [],
    instructions := [] }

def ctxC7 : Sysx64Context :=
  { type_defs := fun _ => .s64, ir := irC7,
    regs := [⟨.SYSREG_64, .SYSREG_REGISTER, RCX⟩,
             ⟨.SYSREG_64, .SYSREG_REGISTER, RDX⟩,
             ⟨.SYSREG_64, .SYSREG_REGISTER, 8⟩],
    ir_layouts := fun _ => ⟨8, 8⟩,
    frame_size := 16, calling_convention := .X64_SYSV, ir_index := 0,
    occupied_registers := 0, clobbered_registers := 0 }

def instC7 : JanetSysInstruction :=
  { opcode := .LT, dest := 2, lhs := 0, rhs := 1 }

def brC7 : JanetSysInstruction :=
  { opcode := .BRANCH, cond := 2, toLbl := 5 }

def irC8 : JanetSysIR :=
  { link_name := some "pfn", calling_convention := .X64_SYSV,
    parameter_count := 1, register_count := 1,
    types := fun _ => 0,
    constants := [],
    instructions := [] }

def ctxC8 : Sysx64Context :=
  { type_defs := fun _ => .s64, ir := irC8,
    regs := [],
    ir_layouts := fun _ => ⟨8, 8⟩,
    frame_size := 0, calling_convention := .X64_SYSV, ir_index := 0,
    occupied_registers := 0, clobbered_registers := 0 }

def ctxC9 : Sysx64Context :=
  { type_defs := fun _ => .s64, ir := irC1,
    regs := [⟨.SYSREG_64, .SYSREG_REGISTER, RCX⟩],
    ir_layouts := fun _ => ⟨8, 8⟩,
    frame_size := 16, calling_convention := .X64_SYSV, ir_index := 0,
    occupied_registers := 0, clobbered_registers := 0 }

def instC9 : JanetSysInstruction :=
  { opcode := .CALL, dest := 0, callee := 0x80000000, flags := 1,
    args := [0, 0, 0, 0, 0, 0, 0] }

def ctxC10 : Sysx64Context :=
  { type_defs := fun _ => .s64, ir := irC1,
    regs := [⟨.SYSREG_64, .SYSREG_REGISTER, RCX⟩],
    ir_layouts := fun _ => ⟨8, 8⟩,
    frame_size := 16, calling_convention := .X64_WINDOWS, ir_index := 0,
    occupied_registers := (1 <<< 10) ||| (1 <<< 11), clobbered_registers := 0 }

def instC10 : JanetSysInstruction :=
  { opcode := .CALL, dest := 0, callee := 0x80000000, flags := 1 }

/-! ## Claim theorems -/

/-- C1: the spec claims that after a CALL/SYSCALL with a destination the
backend emits a move whose destination is the call's destination operand and
whose source is RAX.  Evaluating the embedded code on a call whose
destination lives in RCX shows that both call lowerings emit `mov rax, rcx`
(destination RAX, source the call's destination operand) and never the
claimed `mov rcx, rax`: the source passes the call destination as the
*source* argument of `sysemit_movreg`, overwriting the return value. -/
theorem C1_call_dest_move_reversed :
    sysemit_sysv_call ctxC1 instC1 [] =
      ([Line.ins "mov" ["rax", "0"], Line.ins "call" ["f"],
        Line.ins "mov" ["rax", "rcx"]], none) ∧
    sysemit_win64_call ctxC1 instC1 [] =
      ([Line.ins "call" ["f"], Line.ins "mov" ["rax", "rcx"]], none) ∧
    Line.ins "mov" ["rcx", "rax"] ∉ (sysemit_sysv_call ctxC1 instC1 []).1 ∧
    Line.ins "mov" ["rcx", "rax"] ∉ (sysemit_win64_call ctxC1 instC1 []).1 := by
  decide

/-- C2: the spec claims that under win64 the clobbered set is the assigned
mask intersected with {RBX, RSI, RDI, R12..R15}, so an assigned RSI must be
in it.  On a win64 function with three virtual registers the assigner gives
RSI to virtual 2 (it is in the occupied mask), yet the computed
`clobbered_registers` is exactly {RBX}: the win64 mask expression
`(RDI << 12) | (RSI << 12)` contributes bits 12 and 14 instead of bits 5
and 4, so RSI and RDI are never treated as callee-saved. -/
theorem C2_win64_rsi_rdi_not_callee_saved :
    (regs_of (assign_registers ctxC2)).getD 2 default =
      ⟨.SYSREG_64, .SYSREG_REGISTER, RSI⟩ ∧
    (occupied_of (assign_registers ctxC2)).testBit RSI = true ∧
    (clobbered_of (assign_registers ctxC2)).testBit RSI = false ∧
    clobbered_of (assign_registers ctxC2) = (1 <<< RBX) := by
  decide

/-- C3: the spec claims the stack-destination MULTIPLY path computes
dest = lhs imul rhs through RAX, with the instruction's rhs as the imul
source.  With dest = v2 (stack), lhs = v0 (RCX) and rhs = v1 (RDX), the
embedded code emits `imul rax, rcx` — the lhs operand again — and no line
mentioning the rhs operand RDX at all. -/
theorem C3_multiply_stack_dest_uses_lhs_twice :
    sysemit_threeop_nodeststack ctxC3 "imul" 2 0 1 =
      [Line.ins "mov" ["rax", "rcx"],
       Line.ins "imul" ["rax", "rcx"],
       Line.ins "mov" ["qword [rbp-16]", "rax"]] ∧
    Line.ins "imul" ["rax", "rdx"] ∉ sysemit_threeop_nodeststack ctxC3 "imul" 2 0 1 := by
  decide

/-- C4: the spec claims the materialized comparison emits the setcc against
the low-byte name of the physical register assigned to dest.  With dest = v1
assigned to RDX (low byte `dl`), the embedded code emits `sete cl`:
`register_names_8` is indexed by the virtual-register number
(`instruction.three.dest`), not by the assigned physical register.  The
`xor` zeroing, by contrast, does go through the operand renderer and
correctly targets RDX. -/
theorem C4_setcc_indexes_virtual_register :
    sysemit_comp ctxC4 instC4 none "je" "jne" "sete" "setne" =
      ([Line.ins "cmp" ["rcx", "qword [rbp-16]"],
        Line.ins "xor" ["rdx", "rdx"],
        Line.ins "sete" ["cl"]], false) ∧
    (ctxC4.regs.getD 1 default).index = RDX ∧
    register_names_8.getD RDX "" = "dl" ∧
    Line.ins "sete" ["dl"] ∉ (sysemit_comp ctxC4 instC4 none "je" "jne" "sete" "setne").1 := by
  decide

/-- C5 counterexample: the claim says a function with zero virtual registers
gets frame size 0 under sysv-x64 and 16 under win64.  The assigner starts
its running stack offset at 16, so the concrete zero-register functions get
frame sizes 16 (sysv) and 32 (win64), and the emitted prologue is
`sub rsp, 16`, not `sub rsp, 0`. -/
theorem C5_counterexample :
    frame_of (assign_registers ctxC5) = 16 ∧ (16 : Nat) ≠ 0 ∧
    frame_of (assign_registers ctxC5win) = 32 ∧ (32 : Nat) ≠ 16 ∧
    Line.ins "sub" ["rsp", "16"] ∈ (lowerOneIR linkC5 .X64_OTHER 0 irC5).1 ∧
    Line.ins "sub" ["rsp", "0"] ∉ (lowerOneIR linkC5 .X64_OTHER 0 irC5).1 := by
  decide

/-- C6 counterexample: the claim says an IR without a link name produces no
output at all — in particular no extern line for its symbol constants and no
CONST line for its string constants.  A linkage holding a single nameless IR
with a symbol constant "puts" and a string constant "hi" produces both an
extern declaration and a `CONST_0_1` rodata line (the extern and rodata
loops at lines 759-770 and 934-967 do not test `link_name`). -/
theorem C6_counterexample :
    Line.symDecl "puts" ∈ (janet_sys_ir_lower_to_x64 linkC6 .X64_OTHER).1 ∧
    Line.constdb 0 1 [104, 105] ∈ (janet_sys_ir_lower_to_x64 linkC6 .X64_OTHER).1 := by
  decide

/-- Unfolding of `lowerOneIR` for a named function whose register assignment
succeeds. -/
theorem lowerOneIR_eq_ok (linkage : JanetSysIRLinkage) (target : JanetSysTarget)
    (i : Nat) (ir : JanetSysIR) (nm : String) (c : Sysx64Context)
    (hname : ir.link_name = some nm)
    (hok : assign_registers (ctxInit linkage target i ir) = .ok c) :
    lowerOneIR linkage target i ir =
      (Line.fnLabel nm :: Line.ins "push" ["rbp"] :: Line.ins "mov" ["rbp", "rsp"] ::
       Line.ins "sub" ["rsp", toString c.frame_size] ::
       (clobberPushList c ++ (bodyLoop c ir.instructions).1),
       (bodyLoop c ir.instructions).2) := by
  unfold lowerOneIR
  rw [hname, hok]
  rfl

/-- With no virtual registers the assignment loop is empty, so the frame
size is just the 16-byte-rounded initial offset of 16, plus the win64
shadow-store padding. -/
theorem assign_registers_zero (ctx : Sysx64Context)
    (h : ctx.ir.register_count = 0) :
    ∃ c, assign_registers ctx = .ok c ∧
      c.frame_size = (if ctx.calling_convention = .X64_WINDOWS then 32 else 16) := by
  unfold assign_registers
  rw [h]
  simp only [List.range_zero, assignLoop]
  refine ⟨_, rfl, ?_⟩
  split_ifs with h1 <;> rfl

/-- C5 (amended): a function with zero virtual registers (no parameters and
no locals) emits a prologue `sub rsp, F` with F = 16 under sysv-x64 and
F = 32 under win64: the assigner's running stack offset starts at 16 rather
than 0, and win64 adds 16 more for the shadow store. -/
theorem C5_zero_virtuals_prologue (linkage : JanetSysIRLinkage)
    (target : JanetSysTarget) (i : Nat) (ir : JanetSysIR) (nm : String)
    (hname : ir.link_name = some nm)
    (hrc : ir.register_count = 0)
    (_hpc : ir.parameter_count = 0) :
    (resolve_cc ir.calling_convention target = .X64_SYSV →
      ∃ rest fault, lowerOneIR linkage target i ir =
        (Line.fnLabel nm :: Line.ins "push" ["rbp"] :: Line.ins "mov" ["rbp", "rsp"] ::
         Line.ins "sub" ["rsp", "16"] :: rest, fault)) ∧
    (resolve_cc ir.calling_convention target = .X64_WINDOWS →
      ∃ rest fault, lowerOneIR linkage target i ir =
        (Line.fnLabel nm :: Line.ins "push" ["rbp"] :: Line.ins "mov" ["rbp", "rsp"] ::
         Line.ins "sub" ["rsp", "32"] :: rest, fault)) := by
  obtain ⟨c, hok, hfs⟩ := assign_registers_zero (ctxInit linkage target i ir) hrc
  constructor
  · intro hcc
    have hfs16 : toString c.frame_size = "16" := by
      rw [hfs]
      simp only [ctxInit, hcc]
      rfl
    exact ⟨_, _, by
      rw [lowerOneIR_eq_ok linkage target i ir nm c hname hok, hfs16]⟩
  · intro hcc
    have hfs32 : toString c.frame_size = "32" := by
      rw [hfs]
      simp only [ctxInit, hcc]
      rfl
    exact ⟨_, _, by
      rw [lowerOneIR_eq_ok linkage target i ir nm c hname hok, hfs32]⟩

/-- Witness for C5 at a concrete zero-register sysv function. -/
theorem C5_zero_virtuals_prologue_witness :
    irC5.link_name = some "zf" ∧ irC5.register_count = 0 ∧
    irC5.parameter_count = 0 ∧
    resolve_cc irC5.calling_convention .X64_OTHER = .X64_SYSV ∧
    (∃ rest fault, lowerOneIR linkC5 .X64_OTHER 0 irC5 =
      (Line.fnLabel "zf" :: Line.ins "push" ["rbp"] :: Line.ins "mov" ["rbp", "rsp"] ::
       Line.ins "sub" ["rsp", "16"] :: rest, fault)) := by
  refine ⟨rfl, rfl, rfl, rfl, ?_⟩
  exact (C5_zero_virtuals_prologue linkC5 .X64_OTHER 0 irC5 "zf" rfl rfl rfl).1 rfl

/-- C6 (amended): an IR function without a link name contributes no label
and no body to the `.text` section (the lowering loop skips it entirely),
but its string constants still produce `CONST_<fn_ix>_<const_ix>` lines in
`.rodata` (and its symbol constants still feed the extern loop): those two
loops do not test `link_name`. -/
theorem C6_nameless_ir (linkage : JanetSysIRLinkage) (target : JanetSysTarget)
    (i : Nat) (ir : JanetSysIR) (j : Nat) (c : JanetSysConstant) (bytes : List Nat)
    (hir : linkage.ir_ordered[i]? = some ir)
    (hname : ir.link_name = none)
    (hfault : (janet_sys_ir_lower_to_x64 linkage target).2 = none)
    (hc : ir.constants[j]? = some c)
    (hstr : c.value = .strv bytes) :
    lowerOneIR linkage target i ir = ([], none) ∧
    Line.constdb i j bytes ∈ (janet_sys_ir_lower_to_x64 linkage target).1 := by
  constructor
  · unfold lowerOneIR
    rw [hname]
  · have hmem : Line.constdb i j bytes ∈ rodataAll linkage := by
      unfold rodataAll
      rw [List.mem_flatten]
      refine ⟨rodataForIR i ir, ?_, ?_⟩
      · exact List.mem_map_of_mem _ (List.mk_mem_enum_iff_getElem?.2 hir)
      · unfold rodataForIR
        refine List.mem_filterMap.2 ⟨(j, c), List.mk_mem_enum_iff_getElem?.2 hc, ?_⟩
        simp [hstr]
    cases hf : (lowerFns linkage target linkage.ir_ordered.enum).2 with
    | some m =>
      exfalso
      simp only [janet_sys_ir_lower_to_x64] at hfault
      rw [hf] at hfault
      simp at hfault
    | none =>
      simp only [janet_sys_ir_lower_to_x64]
      rw [hf]
      simp [hmem]

/-- Witness for C6 at a concrete linkage holding one nameless IR with a
string constant. -/
theorem C6_nameless_ir_witness :
    linkC6.ir_ordered[0]? = some irC6 ∧ irC6.link_name = none ∧
    (janet_sys_ir_lower_to_x64 linkC6 .X64_OTHER).2 = none ∧
    irC6.constants[1]? = some ⟨0, .strv [104, 105]⟩ ∧
    (lowerOneIR linkC6 .X64_OTHER 0 irC6 = ([], none) ∧
     Line.constdb 0 1 [104, 105] ∈ (janet_sys_ir_lower_to_x64 linkC6 .X64_OTHER).1) := by
  refine ⟨rfl, rfl, rfl, rfl, ?_⟩
  exact C6_nameless_ir linkC6 .X64_OTHER 0 irC6 1 ⟨0, .strv [104, 105]⟩ [104, 105]
    rfl rfl rfl rfl rfl

/-- A successful assignment step appends exactly one storage record. -/
theorem assignStep_regs (ctx : Sysx64Context) (cc : JanetSysCallingConvention)
    (i : Nat) (st st1 : AssignState)
    (h : assignStep ctx cc i st = .ok st1) :
    ∃ r, st1.regs = st.regs ++ [r] := by
  unfold assignStep at h
  split_ifs at h <;> simp only [Except.ok.injEq] at h <;> subst h <;> exact ⟨_, rfl⟩

/-- The parameter branch of the assignment step (lines 184-211). -/
theorem assignStep_param_sysv (ctx : Sysx64Context) (i : Nat) (st : AssignState)
    (hi : i < ctx.ir.parameter_count) :
    assignStep ctx .X64_SYSV i st =
      .ok { st with regs := st.regs ++ [sysvParamReg ctx i] } := by
  unfold assignStep
  rw [if_pos hi, if_pos rfl]

theorem assignStep_param_win (ctx : Sysx64Context) (i : Nat) (st : AssignState)
    (hi : i < ctx.ir.parameter_count) :
    assignStep ctx .X64_WINDOWS i st =
      .ok { st with regs := st.regs ++ [winParamReg ctx i] } := by
  unfold assignStep
  rw [if_pos hi, if_neg (by decide), if_pos rfl]

theorem assignStep_param (ctx : Sysx64Context) (cc : JanetSysCallingConvention)
    (i : Nat) (st : AssignState)
    (hi : i < ctx.ir.parameter_count)
    (hcc : cc = .X64_SYSV ∨ cc = .X64_WINDOWS) :
    assignStep ctx cc i st = .ok { st with regs := st.regs ++
      [if cc = .X64_SYSV then sysvParamReg ctx i else winParamReg ctx i] } := by
  rcases hcc with h | h <;> subst h
  · rw [if_pos rfl]
    exact assignStep_param_sysv ctx i st hi
  · rw [if_neg (by decide)]
    exact assignStep_param_win ctx i st hi

/-- Under a supported calling convention every assignment step succeeds. -/
theorem assignStep_ok (ctx : Sysx64Context) (cc : JanetSysCallingConvention)
    (i : Nat) (st : AssignState)
    (hcc : cc = .X64_SYSV ∨ cc = .X64_WINDOWS) :
    ∃ st1, assignStep ctx cc i st = .ok st1 := by
  rcases hcc with h | h <;> subst h <;> unfold assignStep <;>
    split_ifs <;> first | exact ⟨_, rfl⟩ | simp_all

/-- Under a supported calling convention the assignment loop succeeds,
appends one record per index and preserves earlier records. -/
theorem assignLoop_ok (ctx : Sysx64Context) (cc : JanetSysCallingConvention)
    (hcc : cc = .X64_SYSV ∨ cc = .X64_WINDOWS) :
    ∀ (idxs : List Nat) (st : AssignState),
      ∃ st1, assignLoop ctx cc idxs st = .ok st1 ∧
        st1.regs.length = st.regs.length + idxs.length ∧
        ∀ n, n < st.regs.length → st1.regs[n]? = st.regs[n]? := by
  intro idxs
  induction idxs with
  | nil =>
    intro st
    exact ⟨st, rfl, by simp, fun n _ => rfl⟩
  | cons i rest ih =>
    intro st
    obtain ⟨sta, hstep⟩ := assignStep_ok ctx cc i st hcc
    obtain ⟨r, hreg⟩ := assignStep_regs ctx cc i st sta hstep
    obtain ⟨st1, hloop, hlen, hpre⟩ := ih sta
    have hsta_len : sta.regs.length = st.regs.length + 1 := by
      rw [hreg]; simp
    refine ⟨st1, ?_, ?_, ?_⟩
    · unfold assignLoop
      rw [hstep]
      exact hloop
    · rw [hlen, hsta_len]
      simp only [List.length_cons]
      omega
    · intro n hn
      rw [hpre n (by omega), hreg]
      exact List.getElem?_append_left hn

/-- The assignment loop splits over list concatenation. -/
theorem assignLoop_append (ctx : Sysx64Context) (cc : JanetSysCallingConvention) :
    ∀ (l1 l2 : List Nat) (st : AssignState),
      assignLoop ctx cc (l1 ++ l2) st =
        match assignLoop ctx cc l1 st with
        | .error m => .error m
        | .ok st1 => assignLoop ctx cc l2 st1 := by
  intro l1
  induction l1 with
  | nil => intro l2 st; rfl
  | cons i rest ih =>
    intro l2 st
    simp only [List.cons_append, assignLoop]
    cases h : assignStep ctx cc i st with
    | error m => rfl
    | ok st1 => exact ih l2 st1

/-- C8: parameter virtual registers receive exactly the ABI-mandated
storage: sysv-x64 maps parameters 0..5 to RDI, RSI, RDX, RCX, R8, R9 and the
rest to parameter-stack slots at offset (i-6)*8+16; win64 maps parameters
0..3 to RCX, RDX, R8, R9 and the rest to parameter-stack slots at offset
(i-4)*8+16. -/
theorem C8_parameter_storage (ctx : Sysx64Context) (i : Nat)
    (hi : i < ctx.ir.parameter_count)
    (hir : i < ctx.ir.register_count)
    (hcc : ctx.calling_convention = .X64_SYSV ∨ ctx.calling_convention = .X64_WINDOWS) :
    ∃ c, assign_registers ctx = .ok c ∧ ∃ r, c.regs[i]? = some r ∧
      (ctx.calling_convention = .X64_SYSV →
        (i < 6 → r.storage = .SYSREG_REGISTER ∧
          r.index = [RDI, RSI, RDX, RCX, 8, 9].getD i 0) ∧
        (6 ≤ i → r.storage = .SYSREG_STACK_PARAMETER ∧ r.index = (i - 6) * 8 + 16)) ∧
      (ctx.calling_convention = .X64_WINDOWS →
        (i < 4 → r.storage = .SYSREG_REGISTER ∧
          r.index = [RCX, RDX, 8, 9].getD i 0) ∧
        (4 ≤ i → r.storage = .SYSREG_STACK_PARAMETER ∧ r.index = (i - 4) * 8 + 16)) := by
  have hinit :
      ∃ stc, assignLoop ctx ctx.calling_convention
          (List.range ctx.ir.register_count)
          ⟨[], (1 <<< RSP) ||| (1 <<< RBP) ||| (1 <<< RAX) ||| (1 <<< RBX), 0, 16⟩ = .ok stc ∧
        stc.regs[i]? = some (if ctx.calling_convention = .X64_SYSV
          then sysvParamReg ctx i else winParamReg ctx i) := by
    set cc := ctx.calling_convention with hccdef
    set init : AssignState :=
      ⟨[], (1 <<< RSP) ||| (1 <<< RBP) ||| (1 <<< RAX) ||| (1 <<< RBX), 0, 16⟩ with hinitdef
    obtain ⟨sta, hla, hlena, _⟩ := assignLoop_ok ctx cc hcc (List.range i) init
    have hsta_len : sta.regs.length = i := by
      rw [hlena]
      simp [hinitdef]
    set pr := (if cc = .X64_SYSV then sysvParamReg ctx i else winParamReg ctx i) with hprdef
    have hstep : assignStep ctx cc i sta = .ok { sta with regs := sta.regs ++ [pr] } :=
      assignStep_param ctx cc i sta hi hcc
    have h2 : assignLoop ctx cc (List.range (i + 1)) init =
        .ok { sta with regs := sta.regs ++ [pr] } := by
      rw [List.range_succ i, assignLoop_append, hla]
      unfold assignLoop
      rw [hstep]
      rfl
    obtain ⟨stc, hlc, hlenc, hprec⟩ :=
      assignLoop_ok ctx cc hcc
        ((List.range (ctx.ir.register_count - (i + 1))).map ((i + 1) + ·))
        { sta with regs := sta.regs ++ [pr] }
    refine ⟨stc, ?_, ?_⟩
    · rw [show ctx.ir.register_count = (i + 1) + (ctx.ir.register_count - (i + 1)) from by omega,
        List.range_add, assignLoop_append, h2]
      exact hlc
    · have hmid : ({ sta with regs := sta.regs ++ [pr] } : AssignState).regs[i]? = some pr := by
        simp only []
        rw [← hsta_len]
        exact List.getElem?_concat_length sta.regs pr
      rw [hprec i (by simp [hsta_len])]
      exact hmid
  obtain ⟨stc, hfull, hget⟩ := hinit
  have hassign : ∃ cR, assign_registers ctx = .ok cR ∧ cR.regs = stc.regs := by
    unfold assign_registers
    simp only []
    rw [hfull]
    exact ⟨_, rfl, rfl⟩
  obtain ⟨cR, hok, hregs⟩ := hassign
  refine ⟨cR, hok, ?_⟩
  rw [hregs]
  refine ⟨_, hget, ?_, ?_⟩
  · intro hs
    rw [if_pos hs]
    constructor
    · intro h6
      interval_cases i <;> exact ⟨rfl, rfl⟩
    · intro h6
      have h0 : ¬ i = 0 := by omega
      have h1 : ¬ i = 1 := by omega
      have h2 : ¬ i = 2 := by omega
      have h3 : ¬ i = 3 := by omega
      have h4 : ¬ i = 4 := by omega
      have h5 : ¬ i = 5 := by omega
      simp only [sysvParamReg, if_neg h0, if_neg h1, if_neg h2, if_neg h3, if_neg h4, if_neg h5]
      exact ⟨trivial, trivial⟩
  · intro hs
    rw [if_neg (by rw [hs]; decide)]
    constructor
    · intro h4
      interval_cases i <;> exact ⟨rfl, rfl⟩
    · intro h4
      have h0 : ¬ i = 0 := by omega
      have h1 : ¬ i = 1 := by omega
      have h2 : ¬ i = 2 := by omega
      have h3 : ¬ i = 3 := by omega
      simp only [winParamReg, if_neg h0, if_neg h1, if_neg h2, if_neg h3]
      exact ⟨trivial, trivial⟩

/-- Witness for C8 at a concrete one-parameter sysv function. -/
theorem C8_parameter_storage_witness :
    (0 < ctxC8.ir.parameter_count ∧ 0 < ctxC8.ir.register_count ∧
      ctxC8.calling_convention = .X64_SYSV) ∧
    (∃ c, assign_registers ctxC8 = .ok c ∧ ∃ r, c.regs[0]? = some r ∧
      (ctxC8.calling_convention = .X64_SYSV →
        ((0 : Nat) < 6 → r.storage = .SYSREG_REGISTER ∧
          r.index = [RDI, RSI, RDX, RCX, 8, 9].getD 0 0) ∧
        (6 ≤ (0 : Nat) → r.storage = .SYSREG_STACK_PARAMETER ∧ r.index = (0 - 6) * 8 + 16)) ∧
      (ctxC8.calling_convention = .X64_WINDOWS →
        ((0 : Nat) < 4 → r.storage = .SYSREG_REGISTER ∧
          r.index = [RCX, RDX, 8, 9].getD 0 0) ∧
        (4 ≤ (0 : Nat) → r.storage = .SYSREG_STACK_PARAMETER ∧ r.index = (0 - 4) * 8 + 16))) :=
  ⟨⟨by decide, by decide, rfl⟩,
   C8_parameter_storage ctxC8 0 (by decide) (by decide) (Or.inl rfl)⟩

/-- Every line of a two-operand binop is either the temporary `mov` or the
operation itself. -/
theorem sysemit_binop_shape (ctx : Sysx64Context) (op : String) (dest src : Nat) :
    ∀ l ∈ sysemit_binop ctx op dest src,
      (∃ a, l = Line.ins "mov" a) ∨ (∃ a, l = Line.ins op a) := by
  intro l hl
  unfold sysemit_binop at hl
  split at hl
  · simp only [List.mem_cons, List.not_mem_nil, or_false] at hl
    rcases hl with h | h
    · exact Or.inl ⟨_, h⟩
    · exact Or.inr ⟨_, h⟩
  · simp only [List.mem_cons, List.not_mem_nil, or_false] at hl
    exact Or.inr ⟨_, hl⟩

/-- A `cmp` binop contains no line satisfying a predicate that rejects `mov`
and `cmp` instruction lines. -/
theorem countP_cmp_binop_zero (ctx : Sysx64Context) (dest src : Nat) (p : Line → Bool)
    (hmov : ∀ a, p (Line.ins "mov" a) = false)
    (hcmp : ∀ a, p (Line.ins "cmp" a) = false) :
    (sysemit_binop ctx "cmp" dest src).countP p = 0 := by
  refine List.countP_eq_zero.2 ?_
  intro a ha
  rcases sysemit_binop_shape ctx "cmp" dest src a ha with ⟨x, rfl⟩ | ⟨x, rfl⟩ <;>
    simp [hmov, hcmp]

/-- `sysemit_comp` on a comparison fused with a following matching branch:
the emitted lines are the `cmp` (with operands swapped when the left operand
is a constant) followed by a single conditional jump, and the
skip-the-branch flag is returned. -/
theorem sysemit_comp_fused (ctx : Sysx64Context) (inst br : JanetSysInstruction)
    (hbr : br.opcode = .BRANCH ∨ br.opcode = .BRANCH_NOT)
    (hcond : br.cond = inst.dest)
    (b bi sc sci : String) :
    sysemit_comp ctx inst (some br) b bi sc sci =
      ((if inst.lhs > JANET_SYS_MAX_OPERAND
        then sysemit_binop ctx "cmp" inst.rhs inst.lhs
        else sysemit_binop ctx "cmp" inst.lhs inst.rhs) ++
       [Line.jump (if br.opcode = .BRANCH_NOT
          then (if inst.lhs > JANET_SYS_MAX_OPERAND then b else bi)
          else (if inst.lhs > JANET_SYS_MAX_OPERAND then bi else b))
         ctx.ir_index br.toLbl], true) := by
  unfold sysemit_comp
  simp only []
  rw [if_pos ⟨hbr, hcond⟩]

/-- One step of the instruction walk across a fused compare-and-branch. -/
theorem comp_fused_step (ctx : Sysx64Context) (inst br : JanetSysInstruction)
    (rest : List JanetSysInstruction) (b bi sc sci : String)
    (hbr : br.opcode = .BRANCH ∨ br.opcode = .BRANCH_NOT)
    (hcond : br.cond = inst.dest)
    (hli : lowerInst ctx inst (some br) =
      ((sysemit_comp ctx inst (some br) b bi sc sci).1, none,
       (sysemit_comp ctx inst (some br) b bi sc sci).2)) :
    bodyLoop ctx (inst :: br :: rest) =
      (((if inst.lhs > JANET_SYS_MAX_OPERAND
         then sysemit_binop ctx "cmp" inst.rhs inst.lhs
         else sysemit_binop ctx "cmp" inst.lhs inst.rhs) ++
        [Line.jump (if br.opcode = .BRANCH_NOT
           then (if inst.lhs > JANET_SYS_MAX_OPERAND then b else bi)
           else (if inst.lhs > JANET_SYS_MAX_OPERAND then bi else b))
          ctx.ir_index br.toLbl]) ++ (bodyLoop ctx rest).1,
       (bodyLoop ctx rest).2) := by
  have hfused := sysemit_comp_fused ctx inst br hbr hcond b bi sc sci
  simp only [bodyLoop, List.head?_cons, hli, hfused]
  simp [List.append_assoc]

/-- C7: a comparison immediately followed by a BRANCH/BRANCH_NOT on its
destination emits the `cmp` (operands swapped when the left operand is a
constant) plus exactly one conditional jump to `label_<fn_ix>_<to>` — the
predicate's jump, inverted for BRANCH_NOT and swapped with its inverse when
the operands were swapped — with no setcc and no test line, and the walk
skips the branch instruction. -/
theorem C7_compare_branch_fusion (ctx : Sysx64Context)
    (inst br : JanetSysInstruction) (rest : List JanetSysInstruction)
    (hc : isCompOp inst.opcode = true)
    (hbr : br.opcode = .BRANCH ∨ br.opcode = .BRANCH_NOT)
    (hcond : br.cond = inst.dest) :
    ∃ cmpLines jumpOp,
      cmpLines = (if inst.lhs > JANET_SYS_MAX_OPERAND
        then sysemit_binop ctx "cmp" inst.rhs inst.lhs
        else sysemit_binop ctx "cmp" inst.lhs inst.rhs) ∧
      jumpOp = (if br.opcode = .BRANCH_NOT
        then (if inst.lhs > JANET_SYS_MAX_OPERAND then (compBranchStrs inst.opcode).1
              else (compBranchStrs inst.opcode).2)
        else (if inst.lhs > JANET_SYS_MAX_OPERAND then (compBranchStrs inst.opcode).2
              else (compBranchStrs inst.opcode).1)) ∧
      bodyLoop ctx (inst :: br :: rest) =
        ((cmpLines ++ [Line.jump jumpOp ctx.ir_index br.toLbl]) ++ (bodyLoop ctx rest).1,
         (bodyLoop ctx rest).2) ∧
      (cmpLines ++ [Line.jump jumpOp ctx.ir_index br.toLbl]).countP isCondJump = 1 ∧
      (cmpLines ++ [Line.jump jumpOp ctx.ir_index br.toLbl]).countP isSetcc = 0 ∧
      (cmpLines ++ [Line.jump jumpOp ctx.ir_index br.toLbl]).countP isTestIns = 0 := by
  have key :
      bodyLoop ctx (inst :: br :: rest) =
        (((if inst.lhs > JANET_SYS_MAX_OPERAND
           then sysemit_binop ctx "cmp" inst.rhs inst.lhs
           else sysemit_binop ctx "cmp" inst.lhs inst.rhs) ++
          [Line.jump (if br.opcode = .BRANCH_NOT
             then (if inst.lhs > JANET_SYS_MAX_OPERAND then (compBranchStrs inst.opcode).1
                   else (compBranchStrs inst.opcode).2)
             else (if inst.lhs > JANET_SYS_MAX_OPERAND then (compBranchStrs inst.opcode).2
                   else (compBranchStrs inst.opcode).1))
            ctx.ir_index br.toLbl]) ++ (bodyLoop ctx rest).1,
         (bodyLoop ctx rest).2) ∧
      (if br.opcode = .BRANCH_NOT
         then (if inst.lhs > JANET_SYS_MAX_OPERAND then (compBranchStrs inst.opcode).1
               else (compBranchStrs inst.opcode).2)
         else (if inst.lhs > JANET_SYS_MAX_OPERAND then (compBranchStrs inst.opcode).2
               else (compBranchStrs inst.opcode).1)) ≠ "jmp" := by
    cases hop : inst.opcode <;> try (rw [hop] at hc; exact absurd hc (by decide))
    case EQ =>
      refine ⟨?_, ?_⟩
      · have hli : lowerInst ctx inst (some br) =
            ((sysemit_comp ctx inst (some br) "je" "jne" "sete" "setne").1, none,
             (sysemit_comp ctx inst (some br) "je" "jne" "sete" "setne").2) := by
          simp only [lowerInst, hop]
        simpa [compBranchStrs] using
          comp_fused_step ctx inst br rest "je" "jne" "sete" "setne" hbr hcond hli
      · simp only [compBranchStrs]
        split_ifs <;> decide
    case NEQ =>
      refine ⟨?_, ?_⟩
      · have hli : lowerInst ctx inst (some br) =
            ((sysemit_comp ctx inst (some br) "jne" "je" "setne" "sete").1, none,
             (sysemit_comp ctx inst (some br) "jne" "je" "setne" "sete").2) := by
          simp only [lowerInst, hop]
        simpa [compBranchStrs] using
          comp_fused_step ctx inst br rest "jne" "je" "setne" "sete" hbr hcond hli
      · simp only [compBranchStrs]
        split_ifs <;> decide
    case LT =>
      refine ⟨?_, ?_⟩
      · have hli : lowerInst ctx inst (some br) =
            ((sysemit_comp ctx inst (some br) "jl" "jge" "setl" "setge").1, none,
             (sysemit_comp ctx inst (some br) "jl" "jge" "setl" "setge").2) := by
          simp only [lowerInst, hop]
        simpa [compBranchStrs] using
          comp_fused_step ctx inst br rest "jl" "jge" "setl" "setge" hbr hcond hli
      · simp only [compBranchStrs]
        split_ifs <;> decide
    case LTE =>
      refine ⟨?_, ?_⟩
      · have hli : lowerInst ctx inst (some br) =
            ((sysemit_comp ctx inst (some br) "jle" "jg" "setle" "setg").1, none,
             (sysemit_comp ctx inst (some br) "jle" "jg" "setle" "setg").2) := by
          simp only [lowerInst, hop]
        simpa [compBranchStrs] using
          comp_fused_step ctx inst br rest "jle" "jg" "setle" "setg" hbr hcond hli
      · simp only [compBranchStrs]
        split_ifs <;> decide
    case GT =>
      refine ⟨?_, ?_⟩
      · have hli : lowerInst ctx inst (some br) =
            ((sysemit_comp ctx inst (some br) "jg" "jle" "setg" "setle").1, none,
             (sysemit_comp ctx inst (some br) "jg" "jle" "setg" "setle").2) := by
          simp only [lowerInst, hop]
        simpa [compBranchStrs] using
          comp_fused_step ctx inst br rest "jg" "jle" "setg" "setle" hbr hcond hli
      · simp only [compBranchStrs]
        split_ifs <;> decide
    case GTE =>
      refine ⟨?_, ?_⟩
      · have hli : lowerInst ctx inst (some br) =
            ((sysemit_comp ctx inst (some br) "jge" "jl" "setge" "setl").1, none,
             (sysemit_comp ctx inst (some br) "jge" "jl" "setge" "setl").2) := by
          simp only [lowerInst, hop]
        simpa [compBranchStrs] using
          comp_fused_step ctx inst br rest "jge" "jl" "setge" "setl" hbr hcond hli
      · simp only [compBranchStrs]
        split_ifs <;> decide
  obtain ⟨hbody, hjmp⟩ := key
  have hcmp0 : ∀ p : Line → Bool,
      (∀ a, p (Line.ins "mov" a) = false) → (∀ a, p (Line.ins "cmp" a) = false) →
      (if inst.lhs > JANET_SYS_MAX_OPERAND
        then sysemit_binop ctx "cmp" inst.rhs inst.lhs
        else sysemit_binop ctx "cmp" inst.lhs inst.rhs).countP p = 0 := by
    intro p hmov hcmp
    split <;> exact countP_cmp_binop_zero ctx _ _ p hmov hcmp
  refine ⟨_, _, rfl, rfl, hbody, ?_, ?_, ?_⟩
  · rw [List.countP_append, hcmp0 isCondJump (fun a => rfl) (fun a => rfl)]
    simp [List.countP_cons, isCondJump, hjmp]
  · rw [List.countP_append, hcmp0 isSetcc (fun a => rfl) (fun a => rfl)]
    simp [List.countP_cons, isSetcc]
  · rw [List.countP_append, hcmp0 isTestIns (fun a => rfl) (fun a => rfl)]
    simp [List.countP_cons, isTestIns]

/-- Witness for C7 at a concrete LT-then-BRANCH pair. -/
theorem C7_compare_branch_fusion_witness :
    (isCompOp instC7.opcode = true ∧
     (brC7.opcode = .BRANCH ∨ brC7.opcode = .BRANCH_NOT) ∧
     brC7.cond = instC7.dest) ∧
    (∃ cmpLines jumpOp,
      cmpLines = (if instC7.lhs > JANET_SYS_MAX_OPERAND
        then sysemit_binop ctxC7 "cmp" instC7.rhs instC7.lhs
        else sysemit_binop ctxC7 "cmp" instC7.lhs instC7.rhs) ∧
      jumpOp = (if brC7.opcode = .BRANCH_NOT
        then (if instC7.lhs > JANET_SYS_MAX_OPERAND then (compBranchStrs instC7.opcode).1
              else (compBranchStrs instC7.opcode).2)
        else (if instC7.lhs > JANET_SYS_MAX_OPERAND then (compBranchStrs instC7.opcode).2
              else (compBranchStrs instC7.opcode).1)) ∧
      bodyLoop ctxC7 (instC7 :: brC7 :: []) =
        ((cmpLines ++ [Line.jump jumpOp ctxC7.ir_index brC7.toLbl]) ++ (bodyLoop ctxC7 []).1,
         (bodyLoop ctxC7 []).2) ∧
      (cmpLines ++ [Line.jump jumpOp ctxC7.ir_index brC7.toLbl]).countP isCondJump = 1 ∧
      (cmpLines ++ [Line.jump jumpOp ctxC7.ir_index brC7.toLbl]).countP isSetcc = 0 ∧
      (cmpLines ++ [Line.jump jumpOp ctxC7.ir_index brC7.toLbl]).countP isTestIns = 0) :=
  ⟨⟨by decide, Or.inl rfl, by decide⟩,
   C7_compare_branch_fusion ctxC7 instC7 brC7 [] (by decide) (Or.inl rfl) (by decide)⟩

theorem countP_isCall_pushreg (r : Nat) : (sysemit_pushreg r).countP isCallIns = 0 := by
  simp [sysemit_pushreg, isCallIns]

theorem countP_isCall_movreg (ctx : Sysx64Context) (r s : Nat) :
    (sysemit_movreg ctx r s).countP isCallIns = 0 := by
  unfold sysemit_movreg
  split <;> simp [isCallIns]

theorem countP_isCall_mov_save (ctx : Sysx64Context) (r s : Nat) :
    (sysemit_mov_save ctx r s).countP isCallIns = 0 := by
  simp [sysemit_mov_save, List.countP_append, countP_isCall_pushreg, countP_isCall_movreg]

/-- The sysv register-save section contains no call or syscall line. -/
theorem countP_isCall_sysvSaveSection (ctx : Sysx64Context) (args : List Nat) :
    (sysvSaveSection ctx args).countP isCallIns = 0 := by
  unfold sysvSaveSection
  simp [apply_ite (List.countP isCallIns), List.countP_append,
    countP_isCall_mov_save, countP_isCall_pushreg]

/-- C9: a sysv call with more than six arguments aborts with the fatal
"nyi push sysv args" error having emitted only register saves (no call or
syscall instruction), while a win64 CALL with more than four arguments
completes, pushes each extra argument, and adjusts RSP by 8*(argcount-4)
immediately after the call. -/
theorem C9_call_arity (ctx : Sysx64Context) (instruction : JanetSysInstruction)
    (args : List Nat) :
    (6 < args.length →
      (sysemit_sysv_call ctx instruction args).2 = some "nyi push sysv args" ∧
      (sysemit_sysv_call ctx instruction args).1.countP isCallIns = 0) ∧
    (4 < args.length → instruction.opcode = .CALL →
      ∃ pre post,
        sysemit_win64_call ctx instruction args =
          (pre ++ Line.ins "call" [sysemit_operand ctx instruction.callee] ::
            Line.ins "add" ["rsp", toString (8 * (args.length - 4))] :: post, none) ∧
        ∀ a ∈ args.drop 4, Line.ins "push" [sysemit_operand ctx a] ∈ pre) := by
  constructor
  · intro h6
    unfold sysemit_sysv_call
    rw [if_pos h6]
    exact ⟨rfl, countP_isCall_sysvSaveSection ctx args⟩
  · intro h4 hop
    refine ⟨win64SaveSection ctx args ++ winPushR1011 ctx ++ win64ExtraPushes ctx args,
            callDestSection ctx instruction ++ (winPopR1011 ctx ++ win64PopTail ctx args),
            ?_, ?_⟩
    · unfold sysemit_win64_call win64CallSection win64AdjustSection
      rw [if_neg (by rw [hop]; decide), if_pos h4]
      simp [List.append_assoc]
    · intro a ha
      simp only [List.mem_append]
      right
      exact List.mem_map_of_mem _ ha

/-- Witness for C9 at a concrete seven-argument call. -/
theorem C9_call_arity_witness :
    (6 < instC9.args.length ∧ 4 < instC9.args.length ∧ instC9.opcode = .CALL) ∧
    ((sysemit_sysv_call ctxC9 instC9 instC9.args).2 = some "nyi push sysv args" ∧
     (sysemit_sysv_call ctxC9 instC9 instC9.args).1.countP isCallIns = 0) ∧
    (∃ pre post,
      sysemit_win64_call ctxC9 instC9 instC9.args =
        (pre ++ Line.ins "call" [sysemit_operand ctxC9 instC9.callee] ::
          Line.ins "add" ["rsp", toString (8 * (instC9.args.length - 4))] :: post, none) ∧
      ∀ a ∈ instC9.args.drop 4, Line.ins "push" [sysemit_operand ctxC9 a] ∈ pre) := by
  have h := C9_call_arity ctxC9 instC9 instC9.args
  exact ⟨⟨by decide, by decide, rfl⟩, h.1 (by decide), h.2 (by decide) rfl⟩

/-- The r11/r10 pops of the win64 call are the exact reverse of the r10/r11
pushes, with push replaced by pop. -/
theorem winPopR1011_reverse (ctx : Sysx64Context) :
    winPopR1011 ctx = ((winPushR1011 ctx).reverse).map pushToPop := by
  unfold winPushR1011 winPopR1011
  cases h10 : decide (ctx.occupied_registers &&& (1 <<< 10) ≠ 0) <;>
    cases h11 : decide (ctx.occupied_registers &&& (1 <<< 11) ≠ 0) <;>
      simp [h10, h11, sysemit_pushreg, sysemit_popreg, pushToPop]

/-- C10: in the win64 call lowering, an occupied R10 or R11 is pushed before
the call and popped after it, and the two pops come in the exact reverse
order of the two pushes. -/
theorem C10_win64_r10_r11_saves (ctx : Sysx64Context)
    (instruction : JanetSysInstruction) (args : List Nat) :
    ∃ A B C,
      (sysemit_win64_call ctx instruction args).1 =
        A ++ winPushR1011 ctx ++ B ++ winPopR1011 ctx ++ C ∧
      (sysemit_win64_call ctx instruction args).2 = none ∧
      winPopR1011 ctx = ((winPushR1011 ctx).reverse).map pushToPop ∧
      (ctx.occupied_registers &&& (1 <<< 10) ≠ 0 →
        Line.ins "push" ["r10"] ∈ winPushR1011 ctx ∧
        Line.ins "pop" ["r10"] ∈ winPopR1011 ctx) ∧
      (ctx.occupied_registers &&& (1 <<< 11) ≠ 0 →
        Line.ins "push" ["r11"] ∈ winPushR1011 ctx ∧
        Line.ins "pop" ["r11"] ∈ winPopR1011 ctx) ∧
      (Line.ins "call" [sysemit_operand ctx instruction.callee] ∈ B ∨
       Line.ins "syscall" ([] : List String) ∈ B) := by
  refine ⟨win64SaveSection ctx args,
          win64ExtraPushes ctx args ++ win64CallSection ctx instruction ++
            win64AdjustSection args ++ callDestSection ctx instruction,
          win64PopTail ctx args, ?_, rfl, winPopR1011_reverse ctx, ?_, ?_, ?_⟩
  · unfold sysemit_win64_call
    simp [List.append_assoc]
  · intro h10
    have hb : decide (ctx.occupied_registers &&& (1 <<< 10) ≠ 0) = true := decide_eq_true h10
    constructor
    · unfold winPushR1011
      rw [if_pos hb]
      exact List.mem_append_left _ (List.mem_singleton.2 rfl)
    · unfold winPopR1011
      refine List.mem_append_right _ ?_
      rw [if_pos hb]
      exact List.mem_singleton.2 rfl
  · intro h11
    have hb : decide (ctx.occupied_registers &&& (1 <<< 11) ≠ 0) = true := decide_eq_true h11
    constructor
    · unfold winPushR1011
      refine List.mem_append_right _ ?_
      rw [if_pos hb]
      exact List.mem_singleton.2 rfl
    · unfold winPopR1011
      rw [if_pos hb]
      exact List.mem_append_left _ (List.mem_singleton.2 rfl)
  · unfold win64CallSection
    split
    · right
      simp [sysemit_movreg, List.mem_append]
    · left
      simp [List.mem_append]

/-- Witness for C10 at a concrete call with R10 and R11 occupied. -/
theorem C10_win64_r10_r11_saves_witness :
    (ctxC10.occupied_registers &&& (1 <<< 10) ≠ 0 ∧
     ctxC10.occupied_registers &&& (1 <<< 11) ≠ 0) ∧
    (∃ A B C,
      (sysemit_win64_call ctxC10 instC10 []).1 =
        A ++ winPushR1011 ctxC10 ++ B ++ winPopR1011 ctxC10 ++ C ∧
      (sysemit_win64_call ctxC10 instC10 []).2 = none ∧
      winPopR1011 ctxC10 = ((winPushR1011 ctxC10).reverse).map pushToPop ∧
      (ctxC10.occupied_registers &&& (1 <<< 10) ≠ 0 →
        Line.ins "push" ["r10"] ∈ winPushR1011 ctxC10 ∧
        Line.ins "pop" ["r10"] ∈ winPopR1011 ctxC10) ∧
      (ctxC10.occupied_registers &&& (1 <<< 11) ≠ 0 →
        Line.ins "push" ["r11"] ∈ winPushR1011 ctxC10 ∧
        Line.ins "pop" ["r11"] ∈ winPopR1011 ctxC10) ∧
      (Line.ins "call" [sysemit_operand ctxC10 instC10.callee] ∈ B ∨
       Line.ins "syscall" ([] : List String) ∈ B)) :=
  ⟨⟨by decide, by decide⟩, C10_win64_r10_r11_saves ctxC10 instC10 []⟩
